import Mathlib

/-!
# nRF24L01+ driver (`nRF24L01_sm.c`): embedding and verified properties

The driver talks to the radio through three HAL primitives
(`HAL_GPIO_WritePin` behind the `NRF24L01_CE_*` / `NRF24L01_CSN_*` macros,
`HAL_SPI_Transmit`, `HAL_SPI_TransmitReceive`) and keeps one static
structure `NRF24L01_Struct`.  The embedding threads a `World` through every
function: the static structure, the state of the bus behind the HAL, the
ordered list of pin/bus events the driver produced, and the list of status
codes the HAL handed back.

The header `nRF24L01_sm.h` is not part of the sources.  Its register
addresses, bit positions, default values and the two register-command
macros are a parameter (`Header`); the five command bytes that the
specification states are fixed definitions.
-/

namespace NRF24L01

/-! ## Types of the header and of the HAL -/

/-- Status code returned by the HAL transfer functions. -/
inductive HAL_StatusTypeDef where
  | HAL_OK
  | HAL_ERROR
  | HAL_BUSY
  | HAL_TIMEOUT
  deriving DecidableEq, Repr

/-- Enumeration `NRF24L01_Transmit_Status_t` of the header. -/
inductive NRF24L01_Transmit_Status_t where
  | NRF24L01_Transmit_Status_Lost
  | NRF24L01_Transmit_Status_Ok
  | NRF24L01_Transmit_Status_Sending
  deriving DecidableEq, Repr

/-- Enumeration `NRF24L01_DataRate_t` of the header. -/
inductive NRF24L01_DataRate_t where
  | NRF24L01_DataRate_2M
  | NRF24L01_DataRate_1M
  | NRF24L01_DataRate_250k
  deriving DecidableEq, Repr

/-- Enumeration `NRF24L01_OutputPower_t` of the header. -/
inductive NRF24L01_OutputPower_t where
  | NRF24L01_OutputPower_M18dBm
  | NRF24L01_OutputPower_M12dBm
  | NRF24L01_OutputPower_M6dBm
  | NRF24L01_OutputPower_0dBm
  deriving DecidableEq, Repr

open HAL_StatusTypeDef NRF24L01_Transmit_Status_t NRF24L01_DataRate_t NRF24L01_OutputPower_t

/-- Structure `NRF24L01_t` behind the static `NRF24L01_Struct`. -/
structure NRF24L01_t where
  PayloadSize : Nat
  Channel : Nat
  OutPwr : NRF24L01_OutputPower_t
  DataRate : NRF24L01_DataRate_t
  deriving DecidableEq, Repr

/-- The two output lines the driver drives. -/
inductive Pin where
  | CE
  | CSN
  deriving DecidableEq, Repr

/-- One pin or bus action of the driver, in the order it happened.
`ce l` / `csn l` drive the line to level `l` (`true` = high); `tx b` is one
`HAL_SPI_Transmit` of the byte `b`; `txrx o i` is one
`HAL_SPI_TransmitReceive` that sent `o` and stored the byte `i`. -/
inductive Event where
  | ce (level : Bool)
  | csn (level : Bool)
  | tx (byte : Nat)
  | txrx (out : Nat) (inp : Nat)
  deriving DecidableEq, Repr

/-- The constants and macros of `nRF24L01_sm.h` that the driver uses and
that neither the sources nor the specification state. -/
structure Header where
  NRF24L01_REG_CONFIG : Nat
  NRF24L01_REG_EN_AA : Nat
  NRF24L01_REG_EN_RXADDR : Nat
  NRF24L01_REG_SETUP_AW : Nat
  NRF24L01_REG_SETUP_RETR : Nat
  NRF24L01_REG_RF_CH : Nat
  NRF24L01_REG_RF_SETUP : Nat
  NRF24L01_REG_STATUS : Nat
  NRF24L01_REG_OBSERVE_TX : Nat
  NRF24L01_REG_RPD : Nat
  NRF24L01_REG_RX_ADDR_P0 : Nat
  NRF24L01_REG_RX_ADDR_P1 : Nat
  NRF24L01_REG_RX_ADDR_P2 : Nat
  NRF24L01_REG_RX_ADDR_P3 : Nat
  NRF24L01_REG_RX_ADDR_P4 : Nat
  NRF24L01_REG_RX_ADDR_P5 : Nat
  NRF24L01_REG_TX_ADDR : Nat
  NRF24L01_REG_RX_PW_P0 : Nat
  NRF24L01_REG_RX_PW_P1 : Nat
  NRF24L01_REG_RX_PW_P2 : Nat
  NRF24L01_REG_RX_PW_P3 : Nat
  NRF24L01_REG_RX_PW_P4 : Nat
  NRF24L01_REG_RX_PW_P5 : Nat
  NRF24L01_REG_FIFO_STATUS : Nat
  NRF24L01_REG_DYNPD : Nat
  NRF24L01_REG_FEATURE : Nat
  NRF24L01_REG_DEFAULT_VAL_CONFIG : Nat
  NRF24L01_REG_DEFAULT_VAL_EN_AA : Nat
  NRF24L01_REG_DEFAULT_VAL_EN_RXADDR : Nat
  NRF24L01_REG_DEFAULT_VAL_SETUP_AW : Nat
  NRF24L01_REG_DEFAULT_VAL_SETUP_RETR : Nat
  NRF24L01_REG_DEFAULT_VAL_RF_CH : Nat
  NRF24L01_REG_DEFAULT_VAL_RF_SETUP : Nat
  NRF24L01_REG_DEFAULT_VAL_STATUS : Nat
  NRF24L01_REG_DEFAULT_VAL_OBSERVE_TX : Nat
  NRF24L01_REG_DEFAULT_VAL_RPD : Nat
  NRF24L01_REG_DEFAULT_VAL_RX_ADDR_P0_0 : Nat
  NRF24L01_REG_DEFAULT_VAL_RX_ADDR_P0_1 : Nat
  NRF24L01_REG_DEFAULT_VAL_RX_ADDR_P0_2 : Nat
  NRF24L01_REG_DEFAULT_VAL_RX_ADDR_P0_3 : Nat
  NRF24L01_REG_DEFAULT_VAL_RX_ADDR_P0_4 : Nat
  NRF24L01_REG_DEFAULT_VAL_RX_ADDR_P1_0 : Nat
  NRF24L01_REG_DEFAULT_VAL_RX_ADDR_P1_1 : Nat
  NRF24L01_REG_DEFAULT_VAL_RX_ADDR_P1_2 : Nat
  NRF24L01_REG_DEFAULT_VAL_RX_ADDR_P1_3 : Nat
  NRF24L01_REG_DEFAULT_VAL_RX_ADDR_P1_4 : Nat
  NRF24L01_REG_DEFAULT_VAL_RX_ADDR_P2 : Nat
  NRF24L01_REG_DEFAULT_VAL_RX_ADDR_P3 : Nat
  NRF24L01_REG_DEFAULT_VAL_RX_ADDR_P4 : Nat
  NRF24L01_REG_DEFAULT_VAL_RX_ADDR_P5 : Nat
  NRF24L01_REG_DEFAULT_VAL_TX_ADDR_0 : Nat
  NRF24L01_REG_DEFAULT_VAL_TX_ADDR_1 : Nat
  NRF24L01_REG_DEFAULT_VAL_TX_ADDR_2 : Nat
  NRF24L01_REG_DEFAULT_VAL_TX_ADDR_3 : Nat
  NRF24L01_REG_DEFAULT_VAL_TX_ADDR_4 : Nat
  NRF24L01_REG_DEFAULT_VAL_RX_PW_P0 : Nat
  NRF24L01_REG_DEFAULT_VAL_RX_PW_P1 : Nat
  NRF24L01_REG_DEFAULT_VAL_RX_PW_P2 : Nat
  NRF24L01_REG_DEFAULT_VAL_RX_PW_P3 : Nat
  NRF24L01_REG_DEFAULT_VAL_RX_PW_P4 : Nat
  NRF24L01_REG_DEFAULT_VAL_RX_PW_P5 : Nat
  NRF24L01_REG_DEFAULT_VAL_FIFO_STATUS : Nat
  NRF24L01_REG_DEFAULT_VAL_DYNPD : Nat
  NRF24L01_REG_DEFAULT_VAL_FEATURE : Nat
  NRF24L01_CONFIG : Nat
  NRF24L01_PRIM_RX : Nat
  NRF24L01_PWR_UP : Nat
  NRF24L01_RX_DR : Nat
  NRF24L01_TX_DS : Nat
  NRF24L01_MAX_RT : Nat
  NRF24L01_RX_EMPTY : Nat
  NRF24L01_RF_DR_LOW : Nat
  NRF24L01_RF_DR_HIGH : Nat
  NRF24L01_RF_PWR : Nat
  NRF24L01_DPL_P0 : Nat
  NRF24L01_DPL_P1 : Nat
  NRF24L01_DPL_P2 : Nat
  NRF24L01_DPL_P3 : Nat
  NRF24L01_DPL_P4 : Nat
  NRF24L01_DPL_P5 : Nat
  NRF24L01_READ_REGISTER_MASK : Nat → Nat
  NRF24L01_WRITE_REGISTER_MASK : Nat → Nat

/-- Modelled from the spec: command byte "no-op/status-only (0xFF)" of §6;
the header that defines `NRF24L01_NOP_MASK` is not among the sources. -/
def NRF24L01_NOP_MASK : Nat := 0xFF

/-- Modelled from the spec: command byte "read-payload (0x61)" of §6; the
header that defines `NRF24L01_R_RX_PAYLOAD_MASK` is not among the sources. -/
def NRF24L01_R_RX_PAYLOAD_MASK : Nat := 0x61

/-- Modelled from the spec: command byte "write-payload (0xA0)" of §6; the
header that defines `NRF24L01_W_TX_PAYLOAD_MASK` is not among the sources. -/
def NRF24L01_W_TX_PAYLOAD_MASK : Nat := 0xA0

/-- Modelled from the spec: command byte "flush-TX (0xE1)" of §6; the header
that defines `NRF24L01_FLUSH_TX_MASK` is not among the sources. -/
def NRF24L01_FLUSH_TX_MASK : Nat := 0xE1

/-- Modelled from the spec: command byte "flush-RX (0xE2)" of §6; the header
that defines `NRF24L01_FLUSH_RX_MASK` is not among the sources. -/
def NRF24L01_FLUSH_RX_MASK : Nat := 0xE2

/-- Modelled from the spec: the bit test macro `NRF24L01_CHECK_BIT(reg, bit)`
of the absent header, which the driver uses to ask whether a status flag
"is set" (§4.3, §4.4): the register masked with the single bit, nonzero
exactly when the bit is set. -/
def NRF24L01_CHECK_BIT (reg bit : Nat) : Nat := reg &&& (1 <<< bit)

/-! ## The bus behind the HAL and the world the driver runs in -/

/-- What the hardware behind the HAL does: how its state `β` reacts to a pin
write and to the two kinds of one-byte SPI transfer, and which status (and
received byte) the HAL hands back. -/
structure Bus (β : Type) where
  HAL_GPIO_WritePin : β → Pin → Bool → β
  HAL_SPI_Transmit : β → Nat → β × HAL_StatusTypeDef
  HAL_SPI_TransmitReceive : β → Nat → β × Nat × HAL_StatusTypeDef

/-- Everything a driver call can read or change. -/
structure World (β : Type) where
  NRF24L01_Struct : NRF24L01_t
  bus : β
  trace : List Event
  results : List HAL_StatusTypeDef

variable {β : Type}

/-- Macro `NRF24L01_CE_LOW()`. -/
def NRF24L01_CE_LOW (B : Bus β) (w : World β) : World β :=
  { w with bus := B.HAL_GPIO_WritePin w.bus Pin.CE false, trace := w.trace ++ [Event.ce false] }

/-- Macro `NRF24L01_CE_HIGH()`. -/
def NRF24L01_CE_HIGH (B : Bus β) (w : World β) : World β :=
  { w with bus := B.HAL_GPIO_WritePin w.bus Pin.CE true, trace := w.trace ++ [Event.ce true] }

/-- Macro `NRF24L01_CSN_LOW()`. -/
def NRF24L01_CSN_LOW (B : Bus β) (w : World β) : World β :=
  { w with bus := B.HAL_GPIO_WritePin w.bus Pin.CSN false, trace := w.trace ++ [Event.csn false] }

/-- Macro `NRF24L01_CSN_HIGH()`. -/
def NRF24L01_CSN_HIGH (B : Bus β) (w : World β) : World β :=
  { w with bus := B.HAL_GPIO_WritePin w.bus Pin.CSN true, trace := w.trace ++ [Event.csn true] }

/-- A call `HAL_SPI_Transmit(NRF24L01_hspi, &byte, 1, NRF24L01_SPI_TIMEOUT)`
whose return value the driver drops. -/
def HAL_SPI_Transmit (B : Bus β) (byte : Nat) (w : World β) : World β :=
  { w with
    bus := (B.HAL_SPI_Transmit w.bus byte).1,
    trace := w.trace ++ [Event.tx byte],
    results := w.results ++ [(B.HAL_SPI_Transmit w.bus byte).2] }

/-- A call `HAL_SPI_TransmitReceive(NRF24L01_hspi, &out, &in, 1,
NRF24L01_SPI_TIMEOUT)` whose return value the driver drops; the received
value lands in a `uint8_t`. -/
def HAL_SPI_TransmitReceive (B : Bus β) (out : Nat) (w : World β) : Nat × World β :=
  ((B.HAL_SPI_TransmitReceive w.bus out).2.1 % 256,
   { w with
     bus := (B.HAL_SPI_TransmitReceive w.bus out).1,
     trace := w.trace ++ [Event.txrx out ((B.HAL_SPI_TransmitReceive w.bus out).2.1 % 256)],
     results := w.results ++ [(B.HAL_SPI_TransmitReceive w.bus out).2.2] })

/-! ## The driver, function by function -/

/-- Function `NRF24L01_ReadRegister`: one frame holding the read command and
one no-op byte; the byte clocked in is the result. -/
def NRF24L01_ReadRegister (H : Header) (B : Bus β) (reg : Nat) (w : World β) : Nat × World β :=
  let writeval := NRF24L01_NOP_MASK
  let address := H.NRF24L01_READ_REGISTER_MASK (reg % 256) % 256
  let w1 := NRF24L01_CSN_LOW B w
  let w2 := HAL_SPI_Transmit B address w1
  let r := HAL_SPI_TransmitReceive B writeval w2
  (r.1, NRF24L01_CSN_HIGH B r.2)

/-- Function `NRF24L01_WriteRegister`: one frame holding the write command
and the value, both `uint8_t`. -/
def NRF24L01_WriteRegister (H : Header) (B : Bus β) (reg value : Nat) (w : World β) : World β :=
  let address := H.NRF24L01_WRITE_REGISTER_MASK (reg % 256) % 256
  let w1 := NRF24L01_CSN_LOW B w
  let w2 := HAL_SPI_Transmit B address w1
  let w3 := HAL_SPI_Transmit B (value % 256) w2
  NRF24L01_CSN_HIGH B w3

/-- The loop `while(count--) { HAL_SPI_Transmit(..., data++, 1, ...); }`:
`count` bytes of the buffer are sent starting at offset `p`.  The buffer is
the memory behind the pointer, a map from offset to byte. -/
def transmitLoop (B : Bus β) (data : Nat → Nat) : Nat → Nat → World β → World β
  | 0, _, w => w
  | count + 1, p, w => transmitLoop B data count (p + 1) (HAL_SPI_Transmit B (data p) w)

/-- Function `NRF24L01_WriteRegisterMulti`. -/
def NRF24L01_WriteRegisterMulti (H : Header) (B : Bus β) (reg : Nat) (data : Nat → Nat)
    (count : Nat) (w : World β) : World β :=
  let address := H.NRF24L01_WRITE_REGISTER_MASK (reg % 256) % 256
  let w1 := NRF24L01_CSN_LOW B w
  let w2 := HAL_SPI_Transmit B address w1
  let w3 := transmitLoop B data (count % 256) 0 w2
  NRF24L01_CSN_HIGH B w3

/-- The loop `while (index < count) { HAL_SPI_TransmitReceive(..., &writeval,
data+index, 1, ...); index++; }` with `left = count - index` iterations to
go: each one sends a no-op byte and stores the received byte at `index`. -/
def receiveLoop (B : Bus β) : Nat → Nat → (Nat → Nat) → World β → (Nat → Nat) × World β
  | 0, _, data, w => (data, w)
  | left + 1, index, data, w =>
      let r := HAL_SPI_TransmitReceive B NRF24L01_NOP_MASK w
      receiveLoop B left (index + 1) (Function.update data index r.1) r.2

/-- Function `NRF24L01_ReadRegisterMulti`. -/
def NRF24L01_ReadRegisterMulti (H : Header) (B : Bus β) (reg : Nat) (data : Nat → Nat)
    (count : Nat) (w : World β) : (Nat → Nat) × World β :=
  let address := H.NRF24L01_READ_REGISTER_MASK (reg % 256) % 256
  let w1 := NRF24L01_CSN_LOW B w
  let w2 := HAL_SPI_Transmit B address w1
  let r := receiveLoop B (count % 256) 0 data w2
  (r.1, NRF24L01_CSN_HIGH B r.2)

/-- Function `NRF24L01_WriteBit`: read, set or clear one bit in a `uint8_t`
(the mask `~(1 << bit)` is a 32-bit `int`), write back. -/
def NRF24L01_WriteBit (H : Header) (B : Bus β) (reg bit value : Nat) (w : World β) : World β :=
  let r := NRF24L01_ReadRegister H B reg w
  let tmp :=
    if value ≠ 0 then (r.1 ||| (1 <<< bit) % 2 ^ 32) % 256
    else (r.1 &&& ((2 ^ 32 - 1) ^^^ ((1 <<< bit) % 2 ^ 32))) % 256
  NRF24L01_WriteRegister H B reg tmp r.2

/-- Function `NRF24L01_ReadBit`. -/
def NRF24L01_ReadBit (H : Header) (B : Bus β) (reg bit : Nat) (w : World β) : Nat × World β :=
  let r := NRF24L01_ReadRegister H B reg w
  if NRF24L01_CHECK_BIT r.1 bit = 0 then (0, r.2) else (1, r.2)

/-- Function `NRF24L01_Clear_Interrupts`. -/
def NRF24L01_Clear_Interrupts (H : Header) (B : Bus β) (w : World β) : World β :=
  NRF24L01_WriteRegister H B 0x07 0x70 w

/-- Function `NRF24L01_Flush_TX`. -/
def NRF24L01_Flush_TX (B : Bus β) (w : World β) : World β :=
  let address := NRF24L01_FLUSH_TX_MASK
  NRF24L01_CSN_HIGH B (HAL_SPI_Transmit B address (NRF24L01_CSN_LOW B w))

/-- Function `NRF24L01_Flush_RX`. -/
def NRF24L01_Flush_RX (B : Bus β) (w : World β) : World β :=
  let address := NRF24L01_FLUSH_RX_MASK
  NRF24L01_CSN_HIGH B (HAL_SPI_Transmit B address (NRF24L01_CSN_LOW B w))

/-- Function `NRF24L01_PowerUpTx`. -/
def NRF24L01_PowerUpTx (H : Header) (B : Bus β) (w : World β) : World β :=
  let w1 := NRF24L01_Clear_Interrupts H B w
  NRF24L01_WriteRegister H B H.NRF24L01_REG_CONFIG
    (H.NRF24L01_CONFIG ||| (0 <<< H.NRF24L01_PRIM_RX) ||| (1 <<< H.NRF24L01_PWR_UP)) w1

/-- Function `NRF24L01_PowerUpRx`. -/
def NRF24L01_PowerUpRx (H : Header) (B : Bus β) (w : World β) : World β :=
  let w1 := NRF24L01_CE_LOW B w
  let w2 := NRF24L01_Flush_RX B w1
  let w3 := NRF24L01_Clear_Interrupts H B w2
  let w4 := NRF24L01_WriteRegister H B H.NRF24L01_REG_CONFIG
    (H.NRF24L01_CONFIG ||| (1 <<< H.NRF24L01_PWR_UP) ||| (1 <<< H.NRF24L01_PRIM_RX)) w3
  NRF24L01_CE_HIGH B w4

/-- Function `NRF24L01_PowerDown`. -/
def NRF24L01_PowerDown (H : Header) (B : Bus β) (w : World β) : World β :=
  let w1 := NRF24L01_CE_LOW B w
  NRF24L01_WriteBit H B H.NRF24L01_REG_CONFIG H.NRF24L01_PWR_UP 0 w1

/-- Function `NRF24L01_Transmit`; `data` is the memory behind the pointer. -/
def NRF24L01_Transmit (H : Header) (B : Bus β) (data : Nat → Nat) (w : World β) : World β :=
  let count := w.NRF24L01_Struct.PayloadSize
  let w1 := NRF24L01_CE_LOW B w
  let w2 := NRF24L01_PowerUpTx H B w1
  let w3 := NRF24L01_Flush_TX B w2
  let address := NRF24L01_W_TX_PAYLOAD_MASK
  let w4 := NRF24L01_CSN_LOW B w3
  let w5 := HAL_SPI_Transmit B address w4
  let w6 := transmitLoop B data count 0 w5
  let w7 := NRF24L01_CSN_HIGH B w6
  NRF24L01_CE_HIGH B w7

/-- Function `NRF24L01_GetData`; returns the buffer after the call. -/
def NRF24L01_GetData (H : Header) (B : Bus β) (data : Nat → Nat) (w : World β) :
    (Nat → Nat) × World β :=
  let address := NRF24L01_R_RX_PAYLOAD_MASK
  let w1 := NRF24L01_CSN_LOW B w
  let w2 := HAL_SPI_Transmit B address w1
  let r := receiveLoop B w.NRF24L01_Struct.PayloadSize 0 data w2
  let w3 := NRF24L01_CSN_HIGH B r.2
  (r.1, NRF24L01_WriteRegister H B H.NRF24L01_REG_STATUS (1 <<< H.NRF24L01_RX_DR) w3)

/-- Function `NRF24L01_GetStatus`. -/
def NRF24L01_GetStatus (B : Bus β) (w : World β) : Nat × World β :=
  let writeval := NRF24L01_NOP_MASK
  let w1 := NRF24L01_CSN_LOW B w
  let r := HAL_SPI_TransmitReceive B writeval w1
  (r.1, NRF24L01_CSN_HIGH B r.2)

/-- Function `NRF24L01_RxFifoEmpty`; the result is a `uint8_t`. -/
def NRF24L01_RxFifoEmpty (H : Header) (B : Bus β) (w : World β) : Nat × World β :=
  let r := NRF24L01_ReadRegister H B H.NRF24L01_REG_FIFO_STATUS w
  (NRF24L01_CHECK_BIT r.1 H.NRF24L01_RX_EMPTY % 256, r.2)

/-- Function `NRF24L01_DataReady`. -/
def NRF24L01_DataReady (H : Header) (B : Bus β) (w : World β) : Nat × World β :=
  let r := NRF24L01_GetStatus B w
  if NRF24L01_CHECK_BIT r.1 H.NRF24L01_RX_DR ≠ 0 then (1, r.2)
  else
    let e := NRF24L01_RxFifoEmpty H B r.2
    (if e.1 = 0 then 1 else 0, e.2)

/-- Function `NRF24L01_GetTransmissionStatus`. -/
def NRF24L01_GetTransmissionStatus (H : Header) (B : Bus β) (w : World β) :
    NRF24L01_Transmit_Status_t × World β :=
  let r := NRF24L01_GetStatus B w
  if NRF24L01_CHECK_BIT r.1 H.NRF24L01_TX_DS ≠ 0 then (NRF24L01_Transmit_Status_Ok, r.2)
  else if NRF24L01_CHECK_BIT r.1 H.NRF24L01_MAX_RT ≠ 0 then (NRF24L01_Transmit_Status_Lost, r.2)
  else (NRF24L01_Transmit_Status_Sending, r.2)

/-- Function `NRF24L01_GetRetransmissionsCount`. -/
def NRF24L01_GetRetransmissionsCount (H : Header) (B : Bus β) (w : World β) : Nat × World β :=
  let r := NRF24L01_ReadRegister H B H.NRF24L01_REG_OBSERVE_TX w
  (r.1 &&& 0x0F, r.2)

/-- Function `NRF24L01_SetChannel`. -/
def NRF24L01_SetChannel (H : Header) (B : Bus β) (channel : Nat) (w : World β) : World β :=
  if channel ≤ 125 ∧ channel ≠ w.NRF24L01_Struct.Channel then
    let w1 := { w with NRF24L01_Struct := { w.NRF24L01_Struct with Channel := channel } }
    NRF24L01_WriteRegister H B H.NRF24L01_REG_RF_CH channel w1
  else w

/-- Function `NRF24L01_SetRF`; `tmp` is a `uint8_t`. -/
def NRF24L01_SetRF (H : Header) (B : Bus β) (DataRate : NRF24L01_DataRate_t)
    (OutPwr : NRF24L01_OutputPower_t) (w : World β) : World β :=
  let tmp := 0
  let w1 := { w with NRF24L01_Struct := { w.NRF24L01_Struct with DataRate := DataRate, OutPwr := OutPwr } }
  let tmp :=
    if DataRate = NRF24L01_DataRate_2M then (tmp ||| (1 <<< H.NRF24L01_RF_DR_HIGH)) % 256
    else if DataRate = NRF24L01_DataRate_250k then (tmp ||| (1 <<< H.NRF24L01_RF_DR_LOW)) % 256
    else tmp
  let tmp :=
    if OutPwr = NRF24L01_OutputPower_0dBm then (tmp ||| (3 <<< H.NRF24L01_RF_PWR)) % 256
    else if OutPwr = NRF24L01_OutputPower_M6dBm then (tmp ||| (2 <<< H.NRF24L01_RF_PWR)) % 256
    else if OutPwr = NRF24L01_OutputPower_M12dBm then (tmp ||| (1 <<< H.NRF24L01_RF_PWR)) % 256
    else tmp
  NRF24L01_WriteRegister H B H.NRF24L01_REG_RF_SETUP tmp w1

/-- Function `NRF24L01_SetMyAddress`. -/
def NRF24L01_SetMyAddress (H : Header) (B : Bus β) (adr : Nat → Nat) (w : World β) : World β :=
  let w1 := NRF24L01_CE_LOW B w
  let w2 := NRF24L01_WriteRegisterMulti H B H.NRF24L01_REG_RX_ADDR_P1 adr 5 w1
  NRF24L01_CE_HIGH B w2

/-- Function `NRF24L01_SetTxAddress`. -/
def NRF24L01_SetTxAddress (H : Header) (B : Bus β) (adr : Nat → Nat) (w : World β) : World β :=
  let w1 := NRF24L01_WriteRegisterMulti H B H.NRF24L01_REG_RX_ADDR_P0 adr 5 w
  NRF24L01_WriteRegisterMulti H B H.NRF24L01_REG_TX_ADDR adr 5 w1

/-- The local array `uint8_t data[5]` of `NRF24L01_SoftwareReset` after its
five element assignments. -/
def data5 (d0 d1 d2 d3 d4 : Nat) : Nat → Nat :=
  fun i => [d0 % 256, d1 % 256, d2 % 256, d3 % 256, d4 % 256].getD i 0

/-- Function `NRF24L01_SoftwareReset`. -/
def NRF24L01_SoftwareReset (H : Header) (B : Bus β) (w : World β) : World β :=
  let w := NRF24L01_WriteRegister H B H.NRF24L01_REG_CONFIG H.NRF24L01_REG_DEFAULT_VAL_CONFIG w
  let w := NRF24L01_WriteRegister H B H.NRF24L01_REG_EN_AA H.NRF24L01_REG_DEFAULT_VAL_EN_AA w
  let w := NRF24L01_WriteRegister H B H.NRF24L01_REG_EN_RXADDR H.NRF24L01_REG_DEFAULT_VAL_EN_RXADDR w
  let w := NRF24L01_WriteRegister H B H.NRF24L01_REG_SETUP_AW H.NRF24L01_REG_DEFAULT_VAL_SETUP_AW w
  let w := NRF24L01_WriteRegister H B H.NRF24L01_REG_SETUP_RETR H.NRF24L01_REG_DEFAULT_VAL_SETUP_RETR w
  let w := NRF24L01_WriteRegister H B H.NRF24L01_REG_RF_CH H.NRF24L01_REG_DEFAULT_VAL_RF_CH w
  let w := NRF24L01_WriteRegister H B H.NRF24L01_REG_RF_SETUP H.NRF24L01_REG_DEFAULT_VAL_RF_SETUP w
  let w := NRF24L01_WriteRegister H B H.NRF24L01_REG_STATUS H.NRF24L01_REG_DEFAULT_VAL_STATUS w
  let w := NRF24L01_WriteRegister H B H.NRF24L01_REG_OBSERVE_TX H.NRF24L01_REG_DEFAULT_VAL_OBSERVE_TX w
  let w := NRF24L01_WriteRegister H B H.NRF24L01_REG_RPD H.NRF24L01_REG_DEFAULT_VAL_RPD w
  let data := data5 H.NRF24L01_REG_DEFAULT_VAL_RX_ADDR_P0_0 H.NRF24L01_REG_DEFAULT_VAL_RX_ADDR_P0_1
    H.NRF24L01_REG_DEFAULT_VAL_RX_ADDR_P0_2 H.NRF24L01_REG_DEFAULT_VAL_RX_ADDR_P0_3
    H.NRF24L01_REG_DEFAULT_VAL_RX_ADDR_P0_4
  let w := NRF24L01_WriteRegisterMulti H B H.NRF24L01_REG_RX_ADDR_P0 data 5 w
  let data := data5 H.NRF24L01_REG_DEFAULT_VAL_RX_ADDR_P1_0 H.NRF24L01_REG_DEFAULT_VAL_RX_ADDR_P1_1
    H.NRF24L01_REG_DEFAULT_VAL_RX_ADDR_P1_2 H.NRF24L01_REG_DEFAULT_VAL_RX_ADDR_P1_3
    H.NRF24L01_REG_DEFAULT_VAL_RX_ADDR_P1_4
  let w := NRF24L01_WriteRegisterMulti H B H.NRF24L01_REG_RX_ADDR_P1 data 5 w
  let w := NRF24L01_WriteRegister H B H.NRF24L01_REG_RX_ADDR_P2 H.NRF24L01_REG_DEFAULT_VAL_RX_ADDR_P2 w
  let w := NRF24L01_WriteRegister H B H.NRF24L01_REG_RX_ADDR_P3 H.NRF24L01_REG_DEFAULT_VAL_RX_ADDR_P3 w
  let w := NRF24L01_WriteRegister H B H.NRF24L01_REG_RX_ADDR_P4 H.NRF24L01_REG_DEFAULT_VAL_RX_ADDR_P4 w
  let w := NRF24L01_WriteRegister H B H.NRF24L01_REG_RX_ADDR_P5 H.NRF24L01_REG_DEFAULT_VAL_RX_ADDR_P5 w
  let data := data5 H.NRF24L01_REG_DEFAULT_VAL_TX_ADDR_0 H.NRF24L01_REG_DEFAULT_VAL_TX_ADDR_1
    H.NRF24L01_REG_DEFAULT_VAL_TX_ADDR_2 H.NRF24L01_REG_DEFAULT_VAL_TX_ADDR_3
    H.NRF24L01_REG_DEFAULT_VAL_TX_ADDR_4
  let w := NRF24L01_WriteRegisterMulti H B H.NRF24L01_REG_TX_ADDR data 5 w
  let w := NRF24L01_WriteRegister H B H.NRF24L01_REG_RX_PW_P0 H.NRF24L01_REG_DEFAULT_VAL_RX_PW_P0 w
  let w := NRF24L01_WriteRegister H B H.NRF24L01_REG_RX_PW_P1 H.NRF24L01_REG_DEFAULT_VAL_RX_PW_P1 w
  let w := NRF24L01_WriteRegister H B H.NRF24L01_REG_RX_PW_P2 H.NRF24L01_REG_DEFAULT_VAL_RX_PW_P2 w
  let w := NRF24L01_WriteRegister H B H.NRF24L01_REG_RX_PW_P3 H.NRF24L01_REG_DEFAULT_VAL_RX_PW_P3 w
  let w := NRF24L01_WriteRegister H B H.NRF24L01_REG_RX_PW_P4 H.NRF24L01_REG_DEFAULT_VAL_RX_PW_P4 w
  let w := NRF24L01_WriteRegister H B H.NRF24L01_REG_RX_PW_P5 H.NRF24L01_REG_DEFAULT_VAL_RX_PW_P5 w
  let w := NRF24L01_WriteRegister H B H.NRF24L01_REG_FIFO_STATUS H.NRF24L01_REG_DEFAULT_VAL_FIFO_STATUS w
  let w := NRF24L01_WriteRegister H B H.NRF24L01_REG_DYNPD H.NRF24L01_REG_DEFAULT_VAL_DYNPD w
  NRF24L01_WriteRegister H B H.NRF24L01_REG_FEATURE H.NRF24L01_REG_DEFAULT_VAL_FEATURE w

/-- Function `NRF24L01_Init`; the first component is the returned `uint8_t`.
The SPI handle argument is the bus `B`. -/
def NRF24L01_Init (H : Header) (B : Bus β) (channel payload_size : Nat) (w : World β) :
    Nat × World β :=
  let w := NRF24L01_CSN_HIGH B w
  let w := NRF24L01_CE_LOW B w
  let payload_size := if payload_size > 32 then 32 else payload_size
  let w := { w with NRF24L01_Struct :=
    { Channel := if channel = 0 then 1 else 0,
      PayloadSize := payload_size,
      OutPwr := NRF24L01_OutputPower_0dBm,
      DataRate := NRF24L01_DataRate_2M } }
  let w := NRF24L01_SoftwareReset H B w
  let w := NRF24L01_SetChannel H B channel w
  let w := NRF24L01_WriteRegister H B H.NRF24L01_REG_RX_PW_P0 w.NRF24L01_Struct.PayloadSize w
  let w := NRF24L01_WriteRegister H B H.NRF24L01_REG_RX_PW_P1 w.NRF24L01_Struct.PayloadSize w
  let w := NRF24L01_WriteRegister H B H.NRF24L01_REG_RX_PW_P2 w.NRF24L01_Struct.PayloadSize w
  let w := NRF24L01_WriteRegister H B H.NRF24L01_REG_RX_PW_P3 w.NRF24L01_Struct.PayloadSize w
  let w := NRF24L01_WriteRegister H B H.NRF24L01_REG_RX_PW_P4 w.NRF24L01_Struct.PayloadSize w
  let w := NRF24L01_WriteRegister H B H.NRF24L01_REG_RX_PW_P5 w.NRF24L01_Struct.PayloadSize w
  let w := NRF24L01_SetRF H B w.NRF24L01_Struct.DataRate w.NRF24L01_Struct.OutPwr w
  let w := NRF24L01_WriteRegister H B H.NRF24L01_REG_CONFIG H.NRF24L01_CONFIG w
  let w := NRF24L01_WriteRegister H B H.NRF24L01_REG_EN_AA 0x3F w
  let w := NRF24L01_WriteRegister H B H.NRF24L01_REG_EN_RXADDR 0x3F w
  let w := NRF24L01_WriteRegister H B H.NRF24L01_REG_SETUP_RETR 0x4F w
  let w := NRF24L01_WriteRegister H B H.NRF24L01_REG_DYNPD
    ((0 <<< H.NRF24L01_DPL_P0) ||| (0 <<< H.NRF24L01_DPL_P1) ||| (0 <<< H.NRF24L01_DPL_P2)
      ||| (0 <<< H.NRF24L01_DPL_P3) ||| (0 <<< H.NRF24L01_DPL_P4) ||| (0 <<< H.NRF24L01_DPL_P5)) w
  let w := NRF24L01_Flush_TX B w
  let w := NRF24L01_Flush_RX B w
  let w := NRF24L01_Clear_Interrupts H B w
  let w := NRF24L01_PowerUpRx H B w
  (1, w)

/-! ## Test doubles and observers used to state the properties -/

/-- Modelled from the spec: the values of the absent header
`nRF24L01_sm.h`, taken from the chip's documented register map that §6
calls a fixed binary layout: register addresses in the low five bits,
`READ_REGISTER | addr` (§4.1) with read command 0x00 and write command 0x20,
and the documented power-on defaults that the software reset writes. -/
def datasheet : Header where
  NRF24L01_REG_CONFIG := 0x00
  NRF24L01_REG_EN_AA := 0x01
  NRF24L01_REG_EN_RXADDR := 0x02
  NRF24L01_REG_SETUP_AW := 0x03
  NRF24L01_REG_SETUP_RETR := 0x04
  NRF24L01_REG_RF_CH := 0x05
  NRF24L01_REG_RF_SETUP := 0x06
  NRF24L01_REG_STATUS := 0x07
  NRF24L01_REG_OBSERVE_TX := 0x08
  NRF24L01_REG_RPD := 0x09
  NRF24L01_REG_RX_ADDR_P0 := 0x0A
  NRF24L01_REG_RX_ADDR_P1 := 0x0B
  NRF24L01_REG_RX_ADDR_P2 := 0x0C
  NRF24L01_REG_RX_ADDR_P3 := 0x0D
  NRF24L01_REG_RX_ADDR_P4 := 0x0E
  NRF24L01_REG_RX_ADDR_P5 := 0x0F
  NRF24L01_REG_TX_ADDR := 0x10
  NRF24L01_REG_RX_PW_P0 := 0x11
  NRF24L01_REG_RX_PW_P1 := 0x12
  NRF24L01_REG_RX_PW_P2 := 0x13
  NRF24L01_REG_RX_PW_P3 := 0x14
  NRF24L01_REG_RX_PW_P4 := 0x15
  NRF24L01_REG_RX_PW_P5 := 0x16
  NRF24L01_REG_FIFO_STATUS := 0x17
  NRF24L01_REG_DYNPD := 0x1C
  NRF24L01_REG_FEATURE := 0x1D
  NRF24L01_REG_DEFAULT_VAL_CONFIG := 0x08
  NRF24L01_REG_DEFAULT_VAL_EN_AA := 0x3F
  NRF24L01_REG_DEFAULT_VAL_EN_RXADDR := 0x03
  NRF24L01_REG_DEFAULT_VAL_SETUP_AW := 0x03
  NRF24L01_REG_DEFAULT_VAL_SETUP_RETR := 0x03
  NRF24L01_REG_DEFAULT_VAL_RF_CH := 0x02
  NRF24L01_REG_DEFAULT_VAL_RF_SETUP := 0x0E
  NRF24L01_REG_DEFAULT_VAL_STATUS := 0x0E
  NRF24L01_REG_DEFAULT_VAL_OBSERVE_TX := 0x00
  NRF24L01_REG_DEFAULT_VAL_RPD := 0x00
  NRF24L01_REG_DEFAULT_VAL_RX_ADDR_P0_0 := 0xE7
  NRF24L01_REG_DEFAULT_VAL_RX_ADDR_P0_1 := 0xE7
  NRF24L01_REG_DEFAULT_VAL_RX_ADDR_P0_2 := 0xE7
  NRF24L01_REG_DEFAULT_VAL_RX_ADDR_P0_3 := 0xE7
  NRF24L01_REG_DEFAULT_VAL_RX_ADDR_P0_4 := 0xE7
  NRF24L01_REG_DEFAULT_VAL_RX_ADDR_P1_0 := 0xC2
  NRF24L01_REG_DEFAULT_VAL_RX_ADDR_P1_1 := 0xC2
  NRF24L01_REG_DEFAULT_VAL_RX_ADDR_P1_2 := 0xC2
  NRF24L01_REG_DEFAULT_VAL_RX_ADDR_P1_3 := 0xC2
  NRF24L01_REG_DEFAULT_VAL_RX_ADDR_P1_4 := 0xC2
  NRF24L01_REG_DEFAULT_VAL_RX_ADDR_P2 := 0xC3
  NRF24L01_REG_DEFAULT_VAL_RX_ADDR_P3 := 0xC4
  NRF24L01_REG_DEFAULT_VAL_RX_ADDR_P4 := 0xC5
  NRF24L01_REG_DEFAULT_VAL_RX_ADDR_P5 := 0xC6
  NRF24L01_REG_DEFAULT_VAL_TX_ADDR_0 := 0xE7
  NRF24L01_REG_DEFAULT_VAL_TX_ADDR_1 := 0xE7
  NRF24L01_REG_DEFAULT_VAL_TX_ADDR_2 := 0xE7
  NRF24L01_REG_DEFAULT_VAL_TX_ADDR_3 := 0xE7
  NRF24L01_REG_DEFAULT_VAL_TX_ADDR_4 := 0xE7
  NRF24L01_REG_DEFAULT_VAL_RX_PW_P0 := 0x00
  NRF24L01_REG_DEFAULT_VAL_RX_PW_P1 := 0x00
  NRF24L01_REG_DEFAULT_VAL_RX_PW_P2 := 0x00
  NRF24L01_REG_DEFAULT_VAL_RX_PW_P3 := 0x00
  NRF24L01_REG_DEFAULT_VAL_RX_PW_P4 := 0x00
  NRF24L01_REG_DEFAULT_VAL_RX_PW_P5 := 0x00
  NRF24L01_REG_DEFAULT_VAL_FIFO_STATUS := 0x11
  NRF24L01_REG_DEFAULT_VAL_DYNPD := 0x00
  NRF24L01_REG_DEFAULT_VAL_FEATURE := 0x00
  NRF24L01_CONFIG := 0x08
  NRF24L01_PRIM_RX := 0
  NRF24L01_PWR_UP := 1
  NRF24L01_RX_DR := 6
  NRF24L01_TX_DS := 5
  NRF24L01_MAX_RT := 4
  NRF24L01_RX_EMPTY := 0
  NRF24L01_RF_DR_LOW := 5
  NRF24L01_RF_DR_HIGH := 3
  NRF24L01_RF_PWR := 1
  NRF24L01_DPL_P0 := 0
  NRF24L01_DPL_P1 := 1
  NRF24L01_DPL_P2 := 2
  NRF24L01_DPL_P3 := 3
  NRF24L01_DPL_P4 := 4
  NRF24L01_DPL_P5 := 5
  NRF24L01_READ_REGISTER_MASK := fun reg => 0x00 ||| (0x1F &&& reg)
  NRF24L01_WRITE_REGISTER_MASK := fun reg => 0x20 ||| (0x1F &&& reg)

/-- A bus on which every transfer succeeds and every received byte comes
from a script (0 once the script is used up). -/
def scriptBus : Bus (List Nat) where
  HAL_GPIO_WritePin := fun q _ _ => q
  HAL_SPI_Transmit := fun q _ => (q, HAL_OK)
  HAL_SPI_TransmitReceive := fun q _ => (q.tail, q.headD 0, HAL_OK)

/-- A bus on which every transfer reports a timeout. -/
def timeoutBus : Bus Unit where
  HAL_GPIO_WritePin := fun u _ _ => u
  HAL_SPI_Transmit := fun u _ => (u, HAL_TIMEOUT)
  HAL_SPI_TransmitReceive := fun u _ => (u, 0, HAL_TIMEOUT)

/-- State of the mock chip: the chip-select level, the command byte of the
frame that is open, how many data bytes that frame has carried, and the
register file (address, byte index within the register). -/
structure Chip where
  csn : Bool
  cmd : Option Nat
  idx : Nat
  regs : Nat → Nat → Nat

/-- The register file after byte `i` of register `a` is set to `b`. -/
def Chip.store (regs : Nat → Nat → Nat) (a i b : Nat) : Nat → Nat → Nat :=
  Function.update regs a (Function.update (regs a) i b)

/-- Modelled from the spec: the "mock bus that echoes writes" of §8, which
is not among the sources.  A frame starts when chip-select goes low; its
first byte is the command, whose low five bits select the register (§6);
with command bits `001` the following bytes are stored in that register,
with command bits `000` the following transfers return its bytes.  The first
byte clocked in during a frame is the STATUS register (§4.4).  Every
transfer succeeds. -/
def echoBus : Bus Chip where
  HAL_GPIO_WritePin := fun c p l =>
    match p with
    | Pin.CE => c
    | Pin.CSN => { c with csn := l, cmd := none, idx := 0 }
  HAL_SPI_Transmit := fun c b =>
    if c.csn then (c, HAL_OK)
    else match c.cmd with
      | none => ({ c with cmd := some b, idx := 0 }, HAL_OK)
      | some k =>
          if k &&& 0xE0 = 0x20 then
            ({ c with regs := Chip.store c.regs (k &&& 0x1F) c.idx b, idx := c.idx + 1 }, HAL_OK)
          else (c, HAL_OK)
  HAL_SPI_TransmitReceive := fun c b =>
    if c.csn then (c, 0, HAL_OK)
    else match c.cmd with
      | none => ({ c with cmd := some b, idx := 0 }, c.regs 0x07 0, HAL_OK)
      | some k =>
          if k &&& 0xE0 = 0x20 then
            ({ c with regs := Chip.store c.regs (k &&& 0x1F) c.idx b, idx := c.idx + 1 }, 0, HAL_OK)
          else if k &&& 0xE0 = 0x00 then
            ({ c with idx := c.idx + 1 }, c.regs (k &&& 0x1F) c.idx, HAL_OK)
          else (c, 0, HAL_OK)

/-- A mock chip with chip-select released and the given register file. -/
def Chip.idle (regs : Nat → Nat → Nat) : Chip :=
  { csn := true, cmd := none, idx := 0, regs := regs }

/-- A world with nothing logged yet. -/
def World.start (s : NRF24L01_t) (b : β) : World β :=
  { NRF24L01_Struct := s, bus := b, trace := [], results := [] }

/-- Some value of the static structure before initialization. -/
def struct0 : NRF24L01_t :=
  { PayloadSize := 0, Channel := 0, OutPwr := NRF24L01_OutputPower_M18dBm,
    DataRate := NRF24L01_DataRate_2M }

/-- One framed register write as seen on the pins and the bus: chip-select
low, write command for `reg`, the value, chip-select high. -/
def framedWrite (H : Header) (reg value : Nat) : List Event :=
  [Event.csn false, Event.tx (H.NRF24L01_WRITE_REGISTER_MASK (reg % 256) % 256),
   Event.tx (value % 256), Event.csn true]

/-- One framed register read that clocked in `value`. -/
def framedRead (H : Header) (reg value : Nat) : List Event :=
  [Event.csn false, Event.tx (H.NRF24L01_READ_REGISTER_MASK (reg % 256) % 256),
   Event.txrx NRF24L01_NOP_MASK value, Event.csn true]

/-- One framed command byte without data. -/
def framedCommand (cmd : Nat) : List Event :=
  [Event.csn false, Event.tx cmd, Event.csn true]

/-- Is the event a bus transfer? -/
def Event.isTransfer : Event → Bool
  | Event.tx _ => true
  | Event.txrx _ _ => true
  | _ => false

/-- Level of CE after a list of events, starting from level `ce0`. -/
def ceAfter (ce0 : Bool) : List Event → Bool
  | [] => ce0
  | Event.ce l :: es => ceAfter l es
  | _ :: es => ceAfter ce0 es

/-- Does every bus transfer in the list happen while CE is low, when CE
starts at level `ce0`? -/
def ceLowAtTransfers (ce0 : Bool) : List Event → Bool
  | [] => true
  | Event.ce l :: es => ceLowAtTransfers l es
  | e :: es => (!(e.isTransfer && ce0)) && ceLowAtTransfers ce0 es

/-- Rate bits of the RF-setup value as the specification words them: the
high rate bit for 2 Mbps, the low rate bit for 250 kbps, none for 1 Mbps. -/
def rateBits (H : Header) : NRF24L01_DataRate_t → Nat
  | NRF24L01_DataRate_2M => 1 <<< H.NRF24L01_RF_DR_HIGH
  | NRF24L01_DataRate_250k => 1 <<< H.NRF24L01_RF_DR_LOW
  | NRF24L01_DataRate_1M => 0

/-- Two-bit output power code of the specification: 3 for 0 dBm down to 0
for -18 dBm. -/
def pwrCode : NRF24L01_OutputPower_t → Nat
  | NRF24L01_OutputPower_0dBm => 3
  | NRF24L01_OutputPower_M6dBm => 2
  | NRF24L01_OutputPower_M12dBm => 1
  | NRF24L01_OutputPower_M18dBm => 0

/-- Transmission status as the specification words it, from the two flags
TX_DS and MAX_RT of the status byte: TX_DS wins, then MAX_RT. -/
def statusOfFlags (tx_ds max_rt : Bool) : NRF24L01_Transmit_Status_t :=
  if tx_ds then NRF24L01_Transmit_Status_Ok
  else if max_rt then NRF24L01_Transmit_Status_Lost
  else NRF24L01_Transmit_Status_Sending

/-- Register address that the mock chip decodes from a register argument:
the low five bits of the `uint8_t`. -/
def low5 (reg : Nat) : Nat := reg % 256 &&& 0x1F

/-- The two register-command macros of the header produce the framing that
the mock chip decodes: write command `0x20 | addr`, read command `addr`, with
`addr` the low five bits of the register argument. -/
def Header.framed (H : Header) : Prop :=
  ∀ r, r < 256 →
    H.NRF24L01_WRITE_REGISTER_MASK r % 256 = 0x20 ||| (r &&& 0x1F)
      ∧ H.NRF24L01_READ_REGISTER_MASK r % 256 = r &&& 0x1F

instance Header.framedDecidable (H : Header) : Decidable H.framed := by
  unfold Header.framed
  infer_instance

/-- The six RX pipe width registers of the header. -/
def Header.pipeWidthRegs (H : Header) : List Nat :=
  [H.NRF24L01_REG_RX_PW_P0, H.NRF24L01_REG_RX_PW_P1, H.NRF24L01_REG_RX_PW_P2,
   H.NRF24L01_REG_RX_PW_P3, H.NRF24L01_REG_RX_PW_P4, H.NRF24L01_REG_RX_PW_P5]

/-- The registers that `NRF24L01_Init` writes after the pipe widths: RF_SETUP,
CONFIG, EN_AA, EN_RXADDR, SETUP_RETR, DYNPD and the literal address 0x07 of
`NRF24L01_Clear_Interrupts`. -/
def Header.writtenAfterWidths (H : Header) : List Nat :=
  [H.NRF24L01_REG_RF_SETUP, H.NRF24L01_REG_CONFIG, H.NRF24L01_REG_EN_AA,
   H.NRF24L01_REG_EN_RXADDR, H.NRF24L01_REG_SETUP_RETR, H.NRF24L01_REG_DYNPD, 0x07]

/-- The six pipe width registers have six different addresses, none of which
is the address of a register written after them during initialization. -/
def Header.widthsApart (H : Header) : Prop :=
  (H.pipeWidthRegs.map low5).Nodup
    ∧ ∀ a ∈ H.pipeWidthRegs, ∀ b ∈ H.writtenAfterWidths, low5 a ≠ low5 b

/-- The address of RF_CH is none of the addresses that `NRF24L01_Init`
writes after it has set the channel. -/
def Header.channelApart (H : Header) : Prop :=
  ∀ b ∈ H.pipeWidthRegs ++ H.writtenAfterWidths, low5 H.NRF24L01_REG_RF_CH ≠ low5 b

instance Header.channelApartDecidable (H : Header) : Decidable H.channelApart := by
  unfold Header.channelApart
  infer_instance

instance Header.widthsApartDecidable (H : Header) : Decidable H.widthsApart := by
  unfold Header.widthsApart
  infer_instance

/-- State of the bus after it has been driven, from state `b`, with the pin
writes and transfers of an event list in order.  Only the bus decides the
outcome: the received byte noted in a `txrx` event plays no part. -/
def busAfter (B : Bus β) : β → List Event → β
  | b, [] => b
  | b, Event.ce l :: es => busAfter B (B.HAL_GPIO_WritePin b Pin.CE l) es
  | b, Event.csn l :: es => busAfter B (B.HAL_GPIO_WritePin b Pin.CSN l) es
  | b, Event.tx x :: es => busAfter B (B.HAL_SPI_Transmit b x).1 es
  | b, Event.txrx o _ :: es => busAfter B (B.HAL_SPI_TransmitReceive b o).1 es

/-- The byte that the bus in state `b` hands back to one
`HAL_SPI_TransmitReceive` sending `out`, as it lands in a `uint8_t`. -/
def busReturns (B : Bus β) (b : β) (out : Nat) : Nat :=
  (B.HAL_SPI_TransmitReceive b out).2.1 % 256

/-- The bytes that the bus, starting in state `b`, hands back to `n`
successive `HAL_SPI_TransmitReceive` calls that each send `out`. -/
def busReturnsMany (B : Bus β) (out : Nat) : Nat → β → List Nat
  | 0, _ => []
  | n + 1, b => busReturns B b out :: busReturnsMany B out n (B.HAL_SPI_TransmitReceive b out).1

/-! ## Effect of the primitives and of the register access layer -/

section Frames

variable (H : Header) (B : Bus β)

@[simp] theorem CE_LOW_trace (w : World β) :
    (NRF24L01_CE_LOW B w).trace = w.trace ++ [Event.ce false] := rfl

@[simp] theorem CE_HIGH_trace (w : World β) :
    (NRF24L01_CE_HIGH B w).trace = w.trace ++ [Event.ce true] := rfl

@[simp] theorem CSN_LOW_trace (w : World β) :
    (NRF24L01_CSN_LOW B w).trace = w.trace ++ [Event.csn false] := rfl

@[simp] theorem CSN_HIGH_trace (w : World β) :
    (NRF24L01_CSN_HIGH B w).trace = w.trace ++ [Event.csn true] := rfl

@[simp] theorem Transmit_trace (b : Nat) (w : World β) :
    (HAL_SPI_Transmit B b w).trace = w.trace ++ [Event.tx b] := rfl

@[simp] theorem CE_LOW_struct (w : World β) :
    (NRF24L01_CE_LOW B w).NRF24L01_Struct = w.NRF24L01_Struct := rfl

@[simp] theorem CE_HIGH_struct (w : World β) :
    (NRF24L01_CE_HIGH B w).NRF24L01_Struct = w.NRF24L01_Struct := rfl

@[simp] theorem CSN_LOW_struct (w : World β) :
    (NRF24L01_CSN_LOW B w).NRF24L01_Struct = w.NRF24L01_Struct := rfl

@[simp] theorem CSN_HIGH_struct (w : World β) :
    (NRF24L01_CSN_HIGH B w).NRF24L01_Struct = w.NRF24L01_Struct := rfl

@[simp] theorem Transmit_struct (b : Nat) (w : World β) :
    (HAL_SPI_Transmit B b w).NRF24L01_Struct = w.NRF24L01_Struct := rfl

@[simp] theorem TransmitReceive_struct (b : Nat) (w : World β) :
    (HAL_SPI_TransmitReceive B b w).2.NRF24L01_Struct = w.NRF24L01_Struct := rfl

@[simp] theorem TransmitReceive_trace (b : Nat) (w : World β) :
    (HAL_SPI_TransmitReceive B b w).2.trace
      = w.trace ++ [Event.txrx b (HAL_SPI_TransmitReceive B b w).1] := rfl

theorem TransmitReceive_lt (b : Nat) (w : World β) :
    (HAL_SPI_TransmitReceive B b w).1 < 256 :=
  Nat.mod_lt _ (by decide)

@[simp] theorem WriteRegister_trace (reg value : Nat) (w : World β) :
    (NRF24L01_WriteRegister H B reg value w).trace = w.trace ++ framedWrite H reg value := by
  simp [NRF24L01_WriteRegister, framedWrite]

@[simp] theorem WriteRegister_struct (reg value : Nat) (w : World β) :
    (NRF24L01_WriteRegister H B reg value w).NRF24L01_Struct = w.NRF24L01_Struct := rfl

@[simp] theorem ReadRegister_struct (reg : Nat) (w : World β) :
    (NRF24L01_ReadRegister H B reg w).2.NRF24L01_Struct = w.NRF24L01_Struct := rfl

@[simp] theorem ReadRegister_trace (reg : Nat) (w : World β) :
    (NRF24L01_ReadRegister H B reg w).2.trace
      = w.trace ++ framedRead H reg (NRF24L01_ReadRegister H B reg w).1 := by
  simp [NRF24L01_ReadRegister, framedRead]

theorem ReadRegister_lt (reg : Nat) (w : World β) :
    (NRF24L01_ReadRegister H B reg w).1 < 256 :=
  Nat.mod_lt _ (by decide)

@[simp] theorem GetStatus_struct (w : World β) :
    (NRF24L01_GetStatus B w).2.NRF24L01_Struct = w.NRF24L01_Struct := rfl

@[simp] theorem GetStatus_trace (w : World β) :
    (NRF24L01_GetStatus B w).2.trace
      = w.trace ++ [Event.csn false, Event.txrx NRF24L01_NOP_MASK (NRF24L01_GetStatus B w).1,
          Event.csn true] := by
  simp [NRF24L01_GetStatus]

theorem GetStatus_lt (w : World β) : (NRF24L01_GetStatus B w).1 < 256 :=
  Nat.mod_lt _ (by decide)

theorem transmitLoop_trace (data : Nat → Nat) (count p : Nat) (w : World β) :
    (transmitLoop B data count p w).trace
      = w.trace ++ (List.range' p count).map (fun i => Event.tx (data i)) := by
  induction count generalizing p w with
  | zero => simp [transmitLoop]
  | succ n ih => simp [transmitLoop, ih, List.range'_succ]

@[simp] theorem transmitLoop_struct (data : Nat → Nat) (count p : Nat) (w : World β) :
    (transmitLoop B data count p w).NRF24L01_Struct = w.NRF24L01_Struct := by
  induction count generalizing p w with
  | zero => rfl
  | succ n ih => simp [transmitLoop, ih]

@[simp] theorem Flush_TX_trace (w : World β) :
    (NRF24L01_Flush_TX B w).trace = w.trace ++ framedCommand NRF24L01_FLUSH_TX_MASK := by
  simp [NRF24L01_Flush_TX, framedCommand]

@[simp] theorem Flush_RX_trace (w : World β) :
    (NRF24L01_Flush_RX B w).trace = w.trace ++ framedCommand NRF24L01_FLUSH_RX_MASK := by
  simp [NRF24L01_Flush_RX, framedCommand]

@[simp] theorem Flush_TX_struct (w : World β) :
    (NRF24L01_Flush_TX B w).NRF24L01_Struct = w.NRF24L01_Struct := rfl

@[simp] theorem Flush_RX_struct (w : World β) :
    (NRF24L01_Flush_RX B w).NRF24L01_Struct = w.NRF24L01_Struct := rfl

theorem busAfter_append (b : β) (es fs : List Event) :
    busAfter B b (es ++ fs) = busAfter B (busAfter B b es) fs := by
  induction es generalizing b with
  | nil => rfl
  | cons e es ih => cases e <;> simp [busAfter, ih]

theorem CE_LOW_bus (w : World β) :
    (NRF24L01_CE_LOW B w).bus = busAfter B w.bus [Event.ce false] := rfl

theorem CE_HIGH_bus (w : World β) :
    (NRF24L01_CE_HIGH B w).bus = busAfter B w.bus [Event.ce true] := rfl

theorem CSN_LOW_bus (w : World β) :
    (NRF24L01_CSN_LOW B w).bus = busAfter B w.bus [Event.csn false] := rfl

theorem CSN_HIGH_bus (w : World β) :
    (NRF24L01_CSN_HIGH B w).bus = busAfter B w.bus [Event.csn true] := rfl

theorem Transmit_bus (b : Nat) (w : World β) :
    (HAL_SPI_Transmit B b w).bus = busAfter B w.bus [Event.tx b] := rfl

theorem TransmitReceive_bus (b i : Nat) (w : World β) :
    (HAL_SPI_TransmitReceive B b w).2.bus = busAfter B w.bus [Event.txrx b i] := rfl

theorem TransmitReceive_val (b : Nat) (w : World β) :
    (HAL_SPI_TransmitReceive B b w).1 = busReturns B w.bus b := rfl

theorem WriteRegister_bus (reg value : Nat) (w : World β) :
    (NRF24L01_WriteRegister H B reg value w).bus
      = busAfter B w.bus (framedWrite H reg value) := rfl

theorem ReadRegister_val (reg : Nat) (w : World β) :
    (NRF24L01_ReadRegister H B reg w).1
      = busReturns B (busAfter B w.bus
          [Event.csn false, Event.tx (H.NRF24L01_READ_REGISTER_MASK (reg % 256) % 256)])
          NRF24L01_NOP_MASK := rfl

theorem ReadRegister_bus (reg i : Nat) (w : World β) :
    (NRF24L01_ReadRegister H B reg w).2.bus = busAfter B w.bus (framedRead H reg i) := rfl

theorem GetStatus_val (w : World β) :
    (NRF24L01_GetStatus B w).1
      = busReturns B (busAfter B w.bus [Event.csn false]) NRF24L01_NOP_MASK := rfl

theorem GetStatus_bus (i : Nat) (w : World β) :
    (NRF24L01_GetStatus B w).2.bus
      = busAfter B w.bus [Event.csn false, Event.txrx NRF24L01_NOP_MASK i, Event.csn true] := rfl

theorem Flush_TX_bus (w : World β) :
    (NRF24L01_Flush_TX B w).bus = busAfter B w.bus (framedCommand NRF24L01_FLUSH_TX_MASK) := rfl

theorem Flush_RX_bus (w : World β) :
    (NRF24L01_Flush_RX B w).bus = busAfter B w.bus (framedCommand NRF24L01_FLUSH_RX_MASK) := rfl

theorem transmitLoop_bus (data : Nat → Nat) (count p : Nat) (w : World β) :
    (transmitLoop B data count p w).bus
      = busAfter B w.bus ((List.range' p count).map (fun i => Event.tx (data i))) := by
  induction count generalizing p w with
  | zero => simp [transmitLoop, busAfter]
  | succ n ih => simp [transmitLoop, ih, List.range'_succ, busAfter, Transmit_bus]

end Frames

theorem ceAfter_append (c : Bool) (a b : List Event) :
    ceAfter c (a ++ b) = ceAfter (ceAfter c a) b := by
  induction a generalizing c with
  | nil => rfl
  | cons e es ih => cases e <;> simp [ceAfter, ih]

theorem ceLowAtTransfers_append (c : Bool) (a b : List Event) :
    ceLowAtTransfers c (a ++ b)
      = (ceLowAtTransfers c a && ceLowAtTransfers (ceAfter c a) b) := by
  induction a generalizing c with
  | nil => simp [ceLowAtTransfers, ceAfter]
  | cons e es ih => cases e <;> simp [ceLowAtTransfers, ceAfter, ih, Bool.and_assoc]

theorem ceAfter_tx (c : Bool) (f : Nat → Nat) (l : List Nat) :
    ceAfter c (l.map (fun i => Event.tx (f i))) = c := by
  induction l with
  | nil => rfl
  | cons a l ih => simp [ceAfter, ih]

theorem ceLowAtTransfers_tx (f : Nat → Nat) (l : List Nat) :
    ceLowAtTransfers false (l.map (fun i => Event.tx (f i))) = true := by
  induction l with
  | nil => rfl
  | cons a l ih => simp [ceLowAtTransfers, Event.isTransfer, ih]

/-! ## Initialization result (C1) -/

/-- C1, as the code has it: `NRF24L01_Init` returns 1 for every header,
every bus and every pair of arguments, whatever statuses the HAL transfer
calls report. -/
theorem Init_returns_one (H : Header) (B : Bus β) (channel payload_size : Nat) (w : World β) :
    (NRF24L01_Init H B channel payload_size w).1 = 1 := rfl

set_option maxRecDepth 100000 in
/-- C1 fails as stated: on a bus where every transfer reports
`HAL_TIMEOUT`, `Init(channel = 40, payload_size = 16)` has transfers that
report the timeout and still returns its success value 1. -/
theorem Init_ignores_timeout :
    HAL_TIMEOUT ∈ (NRF24L01_Init datasheet timeoutBus 40 16 (World.start struct0 ())).2.results
      ∧ (NRF24L01_Init datasheet timeoutBus 40 16 (World.start struct0 ())).1 = 1 := by
  decide

/-! ## Transmit (C2) -/

/-- C2: for every header whose STATUS register has the address 0x07 that
`NRF24L01_Clear_Interrupts` writes to, every bus, every buffer and every
stored payload size `n`, `NRF24L01_Transmit` adds to the event log exactly:
CE low; a framed write of 0x70 to STATUS; a framed write of
`NRF24L01_CONFIG | 1 << PWR_UP` to CONFIG; the framed flush-TX byte 0xE1; one
frame with the byte 0xA0 followed by the first `n` buffer bytes in order; CE
high.  Whatever the CE level before the call, CE is low at every bus
transfer of the call and high after it; the static structure is unchanged,
and the bus ends in the state reached by driving it with exactly these
events. -/
theorem Transmit_events (H : Header) (B : Bus β) (data : Nat → Nat) (w : World β)
    (hS : H.NRF24L01_REG_STATUS = 0x07) (ce0 : Bool) :
    (NRF24L01_Transmit H B data w).trace
        = w.trace ++ ([Event.ce false]
            ++ framedWrite H H.NRF24L01_REG_STATUS 0x70
            ++ framedWrite H H.NRF24L01_REG_CONFIG (H.NRF24L01_CONFIG ||| (1 <<< H.NRF24L01_PWR_UP))
            ++ framedCommand 0xE1
            ++ ([Event.csn false, Event.tx 0xA0]
                ++ (List.range w.NRF24L01_Struct.PayloadSize).map (fun i => Event.tx (data i))
                ++ [Event.csn true])
            ++ [Event.ce true])
      ∧ ceLowAtTransfers ce0 ((NRF24L01_Transmit H B data w).trace.drop w.trace.length) = true
      ∧ ceAfter ce0 ((NRF24L01_Transmit H B data w).trace.drop w.trace.length) = true
      ∧ (NRF24L01_Transmit H B data w).NRF24L01_Struct = w.NRF24L01_Struct
      ∧ (NRF24L01_Transmit H B data w).bus
        = busAfter B w.bus ((NRF24L01_Transmit H B data w).trace.drop w.trace.length) := by
  have ht : (NRF24L01_Transmit H B data w).trace
        = w.trace ++ ([Event.ce false]
            ++ framedWrite H H.NRF24L01_REG_STATUS 0x70
            ++ framedWrite H H.NRF24L01_REG_CONFIG (H.NRF24L01_CONFIG ||| (1 <<< H.NRF24L01_PWR_UP))
            ++ framedCommand 0xE1
            ++ ([Event.csn false, Event.tx 0xA0]
                ++ (List.range w.NRF24L01_Struct.PayloadSize).map (fun i => Event.tx (data i))
                ++ [Event.csn true])
            ++ [Event.ce true]) := by
    simp [NRF24L01_Transmit, NRF24L01_PowerUpTx, NRF24L01_Clear_Interrupts, transmitLoop_trace,
      hS, List.range_eq_range', NRF24L01_FLUSH_TX_MASK, NRF24L01_W_TX_PAYLOAD_MASK]
  refine ⟨ht, ?_, ?_, ?_, ?_⟩
  · rw [ht, List.drop_left]
    simp [ceLowAtTransfers_append, ceAfter_append, ceLowAtTransfers_tx, ceAfter_tx,
      ceLowAtTransfers, ceAfter, framedWrite, framedCommand, Event.isTransfer]
  · rw [ht, List.drop_left]
    simp [ceAfter_append, ceAfter]
  · simp [NRF24L01_Transmit, NRF24L01_PowerUpTx, NRF24L01_Clear_Interrupts]
  · rw [ht, List.drop_left]
    simp only [NRF24L01_Transmit, NRF24L01_PowerUpTx, NRF24L01_Clear_Interrupts, CE_HIGH_bus,
      CSN_HIGH_bus, transmitLoop_bus, Transmit_bus, CSN_LOW_bus, Flush_TX_bus, WriteRegister_bus,
      CE_LOW_bus, busAfter_append, hS, List.range_eq_range', NRF24L01_FLUSH_TX_MASK,
      NRF24L01_W_TX_PAYLOAD_MASK, Nat.zero_shiftLeft, Nat.or_zero, CE_LOW_struct,
      WriteRegister_struct, Flush_TX_struct, CSN_LOW_struct, Transmit_struct]
    rfl

/-- Witness for C2: the documented header, a scripted bus, payload size 3 and
the buffer 10, 11, 12, ... with CE high before the call. -/
theorem Transmit_events_witness :
    (NRF24L01_Transmit datasheet scriptBus (fun i => 10 + i)
        (World.start { struct0 with PayloadSize := 3 } [])).trace
      = [Event.ce false,
         Event.csn false, Event.tx 0x27, Event.tx 0x70, Event.csn true,
         Event.csn false, Event.tx 0x20, Event.tx 0x0A, Event.csn true,
         Event.csn false, Event.tx 0xE1, Event.csn true,
         Event.csn false, Event.tx 0xA0, Event.tx 10, Event.tx 11, Event.tx 12, Event.csn true,
         Event.ce true] := by
  have h := (Transmit_events datasheet scriptBus (fun i => 10 + i)
    (World.start { struct0 with PayloadSize := 3 } []) rfl true).1
  rw [h]
  decide

/-! ## Bit-level facts about bytes -/

theorem checkBit_ne_zero_iff (s b : Nat) : NRF24L01_CHECK_BIT s b ≠ 0 ↔ s.testBit b = true := by
  unfold NRF24L01_CHECK_BIT
  rw [Nat.one_shiftLeft]
  constructor
  · intro h
    by_contra hb
    apply h
    apply Nat.eq_of_testBit_eq
    intro i
    simp only [Nat.testBit_and, Nat.testBit_two_pow, Nat.zero_testBit]
    by_cases hi : b = i
    · subst hi; simp [hb]
    · simp [hi]
  · intro hb h0
    have : (s &&& 2 ^ b).testBit b = true := by
      simp [Nat.testBit_and, Nat.testBit_two_pow, hb]
    rw [h0] at this
    simp at this

theorem or_mod_256 (a b : Nat) : (a ||| b) % 256 = a % 256 ||| b % 256 := by
  apply Nat.eq_of_testBit_eq
  intro i
  rw [show (256 : Nat) = 2 ^ 8 from rfl]
  simp only [Nat.testBit_mod_two_pow, Nat.testBit_or]
  by_cases hi : i < 8 <;> simp [hi]

/-! ## Channel and RF setup (C5, C6) -/

/-- C5: `NRF24L01_SetChannel(channel)` leaves the whole world as it is (no
pin or bus event, stored channel unchanged) unless `channel <= 125` and
`channel` differs from the stored channel; in that case it adds exactly one
framed write of `channel` to RF_CH and stores `channel`, other fields
unchanged.  A second call with the same channel changes nothing, so two
consecutive calls add either nothing or that single framed write.  The bus
is driven with exactly the events the call logged. -/
theorem SetChannel_effect (H : Header) (B : Bus β) (channel : Nat) (w : World β) :
    (¬ (channel ≤ 125 ∧ channel ≠ w.NRF24L01_Struct.Channel) →
        NRF24L01_SetChannel H B channel w = w)
      ∧ ((channel ≤ 125 ∧ channel ≠ w.NRF24L01_Struct.Channel) →
          (NRF24L01_SetChannel H B channel w).trace
              = w.trace ++ [Event.csn false,
                  Event.tx (H.NRF24L01_WRITE_REGISTER_MASK (H.NRF24L01_REG_RF_CH % 256) % 256),
                  Event.tx channel, Event.csn true]
            ∧ (NRF24L01_SetChannel H B channel w).NRF24L01_Struct
              = { w.NRF24L01_Struct with Channel := channel })
      ∧ NRF24L01_SetChannel H B channel (NRF24L01_SetChannel H B channel w)
          = NRF24L01_SetChannel H B channel w
      ∧ ((NRF24L01_SetChannel H B channel (NRF24L01_SetChannel H B channel w)).trace = w.trace
          ∨ (NRF24L01_SetChannel H B channel (NRF24L01_SetChannel H B channel w)).trace
              = w.trace ++ [Event.csn false,
                  Event.tx (H.NRF24L01_WRITE_REGISTER_MASK (H.NRF24L01_REG_RF_CH % 256) % 256),
                  Event.tx channel, Event.csn true])
      ∧ (NRF24L01_SetChannel H B channel w).bus
          = busAfter B w.bus ((NRF24L01_SetChannel H B channel w).trace.drop w.trace.length) := by
  have hidem : NRF24L01_SetChannel H B channel (NRF24L01_SetChannel H B channel w)
      = NRF24L01_SetChannel H B channel w := by
    by_cases hc : channel ≤ 125 ∧ channel ≠ w.NRF24L01_Struct.Channel
    · have hs : (NRF24L01_SetChannel H B channel w).NRF24L01_Struct.Channel = channel := by
        simp [NRF24L01_SetChannel, hc]
      generalize NRF24L01_SetChannel H B channel w = w1 at hs
      simp [NRF24L01_SetChannel, hs]
    · have h1 : NRF24L01_SetChannel H B channel w = w := by
        simp only [NRF24L01_SetChannel, if_neg hc]
      rw [h1, h1]
  have hw : (channel ≤ 125 ∧ channel ≠ w.NRF24L01_Struct.Channel) →
      (NRF24L01_SetChannel H B channel w).trace
        = w.trace ++ [Event.csn false,
            Event.tx (H.NRF24L01_WRITE_REGISTER_MASK (H.NRF24L01_REG_RF_CH % 256) % 256),
            Event.tx channel, Event.csn true] := by
    intro hc
    have hm : channel % 256 = channel := Nat.mod_eq_of_lt (by omega)
    simp [NRF24L01_SetChannel, hc, framedWrite, hm]
  refine ⟨?_, ?_, hidem, ?_, ?_⟩
  · intro hc
    simp only [NRF24L01_SetChannel, if_neg hc]
  · intro hc
    exact ⟨hw hc, by simp [NRF24L01_SetChannel, hc]⟩
  · rw [hidem]
    by_cases hc : channel ≤ 125 ∧ channel ≠ w.NRF24L01_Struct.Channel
    · right; exact hw hc
    · left; simp only [NRF24L01_SetChannel, if_neg hc]
  · by_cases hc : channel ≤ 125 ∧ channel ≠ w.NRF24L01_Struct.Channel
    · have hm : channel % 256 = channel := Nat.mod_eq_of_lt (by omega)
      rw [hw hc, List.drop_left]
      simp only [NRF24L01_SetChannel, if_pos hc, WriteRegister_bus, framedWrite, hm]
    · have h1 : NRF24L01_SetChannel H B channel w = w := by
        simp only [NRF24L01_SetChannel, if_neg hc]
      rw [h1, List.drop_length]
      rfl

/-- C6: when the three bit positions RF_DR_HIGH, RF_DR_LOW (different from
each other, below 8) and RF_PWR (below 7) fit a byte, `NRF24L01_SetRF` adds
to the event log exactly one framed write to RF_SETUP whose value byte is
`rateBits | (pwrCode << RF_PWR)` for each of the 3 x 4 argument pairs, the
rate bits never being both set; it stores both arguments and leaves the
other fields of the static structure alone; the bus is driven with exactly
the logged events. -/
theorem SetRF_effect (H : Header) (B : Bus β) (DataRate : NRF24L01_DataRate_t)
    (OutPwr : NRF24L01_OutputPower_t) (w : World β)
    (hHigh : H.NRF24L01_RF_DR_HIGH < 8) (hLow : H.NRF24L01_RF_DR_LOW < 8)
    (hPwr : H.NRF24L01_RF_PWR < 7) (hne : H.NRF24L01_RF_DR_HIGH ≠ H.NRF24L01_RF_DR_LOW) :
    (NRF24L01_SetRF H B DataRate OutPwr w).trace
        = w.trace ++ [Event.csn false,
            Event.tx (H.NRF24L01_WRITE_REGISTER_MASK (H.NRF24L01_REG_RF_SETUP % 256) % 256),
            Event.tx (rateBits H DataRate ||| (pwrCode OutPwr <<< H.NRF24L01_RF_PWR)),
            Event.csn true]
      ∧ ¬ ((rateBits H DataRate).testBit H.NRF24L01_RF_DR_HIGH = true
          ∧ (rateBits H DataRate).testBit H.NRF24L01_RF_DR_LOW = true)
      ∧ (NRF24L01_SetRF H B DataRate OutPwr w).NRF24L01_Struct
        = { w.NRF24L01_Struct with DataRate := DataRate, OutPwr := OutPwr }
      ∧ (NRF24L01_SetRF H B DataRate OutPwr w).bus
        = busAfter B w.bus ((NRF24L01_SetRF H B DataRate OutPwr w).trace.drop w.trace.length) := by
  have hr : rateBits H DataRate < 256 := by
    have h1 : (1 : Nat) <<< H.NRF24L01_RF_DR_HIGH < 256 := by
      rw [Nat.one_shiftLeft]
      exact lt_of_lt_of_le (Nat.pow_lt_pow_right (by decide) hHigh) (by decide)
    have h2 : (1 : Nat) <<< H.NRF24L01_RF_DR_LOW < 256 := by
      rw [Nat.one_shiftLeft]
      exact lt_of_lt_of_le (Nat.pow_lt_pow_right (by decide) hLow) (by decide)
    cases DataRate <;> simp [rateBits, h1, h2]
  have hp : pwrCode OutPwr <<< H.NRF24L01_RF_PWR < 256 := by
    have hk : H.NRF24L01_RF_PWR ≤ 6 := by omega
    have h3 : pwrCode OutPwr ≤ 3 := by cases OutPwr <;> simp [pwrCode]
    have : pwrCode OutPwr <<< H.NRF24L01_RF_PWR ≤ 3 * 2 ^ 6 := by
      rw [Nat.shiftLeft_eq]
      exact Nat.mul_le_mul h3 (Nat.pow_le_pow_right (by decide) hk)
    omega
  have hv : (rateBits H DataRate ||| (pwrCode OutPwr <<< H.NRF24L01_RF_PWR)) % 256
      = rateBits H DataRate ||| (pwrCode OutPwr <<< H.NRF24L01_RF_PWR) := by
    rw [or_mod_256, Nat.mod_eq_of_lt hr, Nat.mod_eq_of_lt hp]
  have ht : (NRF24L01_SetRF H B DataRate OutPwr w).trace
        = w.trace ++ [Event.csn false,
            Event.tx (H.NRF24L01_WRITE_REGISTER_MASK (H.NRF24L01_REG_RF_SETUP % 256) % 256),
            Event.tx (rateBits H DataRate ||| (pwrCode OutPwr <<< H.NRF24L01_RF_PWR)),
            Event.csn true] := by
    rw [← hv]
    cases DataRate <;> cases OutPwr <;>
      simp [NRF24L01_SetRF, framedWrite, rateBits, pwrCode, or_mod_256]
  refine ⟨ht, ?_, ?_, ?_⟩
  · cases DataRate <;>
      simp [rateBits, Nat.one_shiftLeft, Nat.testBit_two_pow, hne, Ne.symm hne]
  · cases DataRate <;> cases OutPwr <;> simp [NRF24L01_SetRF]
  · rw [ht, List.drop_left, ← hv]
    cases DataRate <;> cases OutPwr <;>
      simp [NRF24L01_SetRF, WriteRegister_bus, framedWrite, rateBits, pwrCode, or_mod_256]

/-- Witness for C6: the documented bit positions (3, 5 and 1), 250 kbps at
-6 dBm: the value byte is `0x20 | (2 << 1) = 0x24`. -/
theorem SetRF_effect_witness :
    (NRF24L01_SetRF datasheet scriptBus NRF24L01_DataRate_250k NRF24L01_OutputPower_M6dBm
        (World.start struct0 [])).trace
      = [Event.csn false, Event.tx 0x26, Event.tx 0x24, Event.csn true] := by
  have h := (SetRF_effect datasheet scriptBus NRF24L01_DataRate_250k NRF24L01_OutputPower_M6dBm
    (World.start struct0 []) (by decide) (by decide) (by decide) (by decide)).1
  rw [h]
  decide

/-! ## Status interpretation (C7, C8) -/

/-- C7: with `s` the status byte that `NRF24L01_GetStatus` gets from the bus,
`NRF24L01_GetTransmissionStatus` returns `Ok` when bit TX_DS of `s` is set,
else `Lost` when bit MAX_RT is set, else `Sending`: a function of these two
bits alone.  The call adds exactly one frame holding one transfer of the
no-op byte 0xFF (no register write) and leaves the static structure
unchanged.  The byte `s` is the one the bus hands back to that transfer once
chip-select is low, and the bus is driven with exactly the logged events. -/
theorem GetTransmissionStatus_decodes (H : Header) (B : Bus β) (w : World β) :
    (NRF24L01_GetTransmissionStatus H B w).1
        = statusOfFlags ((NRF24L01_GetStatus B w).1.testBit H.NRF24L01_TX_DS)
            ((NRF24L01_GetStatus B w).1.testBit H.NRF24L01_MAX_RT)
      ∧ (NRF24L01_GetTransmissionStatus H B w).2.trace
        = w.trace ++ [Event.csn false, Event.txrx 0xFF (NRF24L01_GetStatus B w).1, Event.csn true]
      ∧ (NRF24L01_GetTransmissionStatus H B w).2.NRF24L01_Struct = w.NRF24L01_Struct
      ∧ (NRF24L01_GetStatus B w).1 = busReturns B (busAfter B w.bus [Event.csn false]) 0xFF
      ∧ (NRF24L01_GetTransmissionStatus H B w).2.bus
        = busAfter B w.bus
            ((NRF24L01_GetTransmissionStatus H B w).2.trace.drop w.trace.length) := by
  have hw2 : (NRF24L01_GetTransmissionStatus H B w).2 = (NRF24L01_GetStatus B w).2 := by
    simp only [NRF24L01_GetTransmissionStatus]
    split
    · rfl
    · split <;> rfl
  have hold : (NRF24L01_GetTransmissionStatus H B w).1
        = statusOfFlags ((NRF24L01_GetStatus B w).1.testBit H.NRF24L01_TX_DS)
            ((NRF24L01_GetStatus B w).1.testBit H.NRF24L01_MAX_RT)
      ∧ (NRF24L01_GetTransmissionStatus H B w).2.trace
        = w.trace ++ [Event.csn false, Event.txrx 0xFF (NRF24L01_GetStatus B w).1, Event.csn true]
      ∧ (NRF24L01_GetTransmissionStatus H B w).2.NRF24L01_Struct = w.NRF24L01_Struct := by
    have h1 := checkBit_ne_zero_iff (NRF24L01_GetStatus B w).1 H.NRF24L01_TX_DS
    have h2 := checkBit_ne_zero_iff (NRF24L01_GetStatus B w).1 H.NRF24L01_MAX_RT
    unfold NRF24L01_GetTransmissionStatus statusOfFlags
    by_cases hd : (NRF24L01_GetStatus B w).1.testBit H.NRF24L01_TX_DS = true
    · simp [hd, h1.mpr hd, NRF24L01_NOP_MASK]
    · have hd0 : ¬ NRF24L01_CHECK_BIT (NRF24L01_GetStatus B w).1 H.NRF24L01_TX_DS ≠ 0 :=
        fun h => hd (h1.mp h)
      by_cases hm : (NRF24L01_GetStatus B w).1.testBit H.NRF24L01_MAX_RT = true
      · simp [hd, hm, hd0, h2.mpr hm, NRF24L01_NOP_MASK]
      · have hm0 : ¬ NRF24L01_CHECK_BIT (NRF24L01_GetStatus B w).1 H.NRF24L01_MAX_RT ≠ 0 :=
          fun h => hm (h2.mp h)
        simp [hd, hm, hd0, hm0, NRF24L01_NOP_MASK]
  refine ⟨hold.1, hold.2.1, hold.2.2, rfl, ?_⟩
  rw [hw2, GetStatus_trace, List.drop_left]
  rfl

theorem checkBit_mod_eq_zero_iff (f b : Nat) (hf : f < 256) :
    NRF24L01_CHECK_BIT f b % 256 = 0 ↔ f.testBit b = false := by
  have hle : NRF24L01_CHECK_BIT f b ≤ f := Nat.and_le_left
  rw [Nat.mod_eq_of_lt (lt_of_le_of_lt hle hf)]
  have h := checkBit_ne_zero_iff f b
  constructor
  · intro h0
    by_contra hb
    exact (h.mpr (by simpa using hb)) h0
  · intro hb
    by_contra h0
    rw [h.mp h0] at hb
    exact Bool.noConfusion hb

theorem DataReady_value (H : Header) (B : Bus β) (w : World β) :
    ((NRF24L01_DataReady H B w).1 ≠ 0 ↔
        ((NRF24L01_GetStatus B w).1.testBit H.NRF24L01_RX_DR = true
          ∨ (NRF24L01_ReadRegister H B H.NRF24L01_REG_FIFO_STATUS
              (NRF24L01_GetStatus B w).2).1.testBit H.NRF24L01_RX_EMPTY = false))
      ∧ ((NRF24L01_DataReady H B w).1 = 0 ↔
        ((NRF24L01_GetStatus B w).1.testBit H.NRF24L01_RX_DR = false
          ∧ (NRF24L01_ReadRegister H B H.NRF24L01_REG_FIFO_STATUS
              (NRF24L01_GetStatus B w).2).1.testBit H.NRF24L01_RX_EMPTY = true))
      ∧ (NRF24L01_DataReady H B w).1 ≤ 1 := by
  have h1 := checkBit_ne_zero_iff (NRF24L01_GetStatus B w).1 H.NRF24L01_RX_DR
  have h2 := checkBit_mod_eq_zero_iff
    (NRF24L01_ReadRegister H B H.NRF24L01_REG_FIFO_STATUS (NRF24L01_GetStatus B w).2).1
    H.NRF24L01_RX_EMPTY (ReadRegister_lt H B _ _)
  unfold NRF24L01_DataReady NRF24L01_RxFifoEmpty
  by_cases hd : (NRF24L01_GetStatus B w).1.testBit H.NRF24L01_RX_DR = true
  · simp [hd, h1.mpr hd]
  · have hd0 : ¬ NRF24L01_CHECK_BIT (NRF24L01_GetStatus B w).1 H.NRF24L01_RX_DR ≠ 0 :=
      fun h => hd (h1.mp h)
    have hdf : (NRF24L01_GetStatus B w).1.testBit H.NRF24L01_RX_DR = false := by
      simpa using hd
    by_cases he : (NRF24L01_ReadRegister H B H.NRF24L01_REG_FIFO_STATUS
        (NRF24L01_GetStatus B w).2).1.testBit H.NRF24L01_RX_EMPTY = false
    · have he0 := h2.mpr he
      simp only [if_neg hd0, if_pos he0, hdf, he]
      simp
    · have he0 : ¬ _ = 0 := fun h => he (h2.mp h)
      have het : (NRF24L01_ReadRegister H B H.NRF24L01_REG_FIFO_STATUS
          (NRF24L01_GetStatus B w).2).1.testBit H.NRF24L01_RX_EMPTY = true := by
        simpa using he
      simp only [if_neg hd0, if_neg he0, hdf, het]
      simp

theorem DataReady_world (H : Header) (B : Bus β) (w : World β) :
    (NRF24L01_DataReady H B w).2
      = if (NRF24L01_GetStatus B w).1.testBit H.NRF24L01_RX_DR = true
        then (NRF24L01_GetStatus B w).2
        else (NRF24L01_ReadRegister H B H.NRF24L01_REG_FIFO_STATUS (NRF24L01_GetStatus B w).2).2 := by
  have h1 := checkBit_ne_zero_iff (NRF24L01_GetStatus B w).1 H.NRF24L01_RX_DR
  by_cases hd : (NRF24L01_GetStatus B w).1.testBit H.NRF24L01_RX_DR = true
  · simp [NRF24L01_DataReady, hd, h1.mpr hd]
  · have hd0 : ¬ NRF24L01_CHECK_BIT (NRF24L01_GetStatus B w).1 H.NRF24L01_RX_DR ≠ 0 :=
      fun h => hd (h1.mp h)
    simp only [NRF24L01_DataReady, NRF24L01_RxFifoEmpty, if_neg hd0, if_neg hd]

/-- C8: let `s` be the byte the bus hands back to the no-op transfer of the
status frame (chip-select low, one transfer of 0xFF) and `f` the byte the bus
hands back to the no-op transfer of the FIFO_STATUS read frame that follows
it.  Then `NRF24L01_DataReady` returns a nonzero value exactly when bit RX_DR
of `s` is set or bit RX_EMPTY of `f` is clear, and 0 exactly when RX_DR is
clear and RX_EMPTY is set; the value is 0 or 1.  The call adds to the event
log the status frame that clocked in `s` and, when RX_DR is clear, the framed
read of FIFO_STATUS that clocked in `f`; the bus ends in the state reached by
driving it with exactly these events, and the static structure is
unchanged. -/
theorem DataReady_iff (H : Header) (B : Bus β) (w : World β) (s f : Nat)
    (hs : busReturns B (busAfter B w.bus [Event.csn false]) 0xFF = s)
    (hf : busReturns B (busAfter B w.bus
        [Event.csn false, Event.txrx 0xFF s, Event.csn true, Event.csn false,
         Event.tx (H.NRF24L01_READ_REGISTER_MASK (H.NRF24L01_REG_FIFO_STATUS % 256) % 256)])
        0xFF = f) :
    ((NRF24L01_DataReady H B w).1 ≠ 0 ↔
        (s.testBit H.NRF24L01_RX_DR = true ∨ f.testBit H.NRF24L01_RX_EMPTY = false))
      ∧ ((NRF24L01_DataReady H B w).1 = 0 ↔
        (s.testBit H.NRF24L01_RX_DR = false ∧ f.testBit H.NRF24L01_RX_EMPTY = true))
      ∧ (NRF24L01_DataReady H B w).1 ≤ 1
      ∧ (NRF24L01_DataReady H B w).2.trace
        = w.trace ++ (if s.testBit H.NRF24L01_RX_DR = true
            then [Event.csn false, Event.txrx 0xFF s, Event.csn true]
            else [Event.csn false, Event.txrx 0xFF s, Event.csn true]
              ++ framedRead H H.NRF24L01_REG_FIFO_STATUS f)
      ∧ (NRF24L01_DataReady H B w).2.bus
        = busAfter B w.bus ((NRF24L01_DataReady H B w).2.trace.drop w.trace.length)
      ∧ (NRF24L01_DataReady H B w).2.NRF24L01_Struct = w.NRF24L01_Struct := by
  have hs1 : (NRF24L01_GetStatus B w).1 = s := hs
  have hf1 : (NRF24L01_ReadRegister H B H.NRF24L01_REG_FIFO_STATUS
      (NRF24L01_GetStatus B w).2).1 = f := hf
  have hv := DataReady_value H B w
  have hw := DataReady_world H B w
  rw [hs1, hf1] at hv
  rw [hs1] at hw
  have ht : (NRF24L01_DataReady H B w).2.trace
        = w.trace ++ (if s.testBit H.NRF24L01_RX_DR = true
            then [Event.csn false, Event.txrx 0xFF s, Event.csn true]
            else [Event.csn false, Event.txrx 0xFF s, Event.csn true]
              ++ framedRead H H.NRF24L01_REG_FIFO_STATUS f) := by
    rw [hw]
    split
    · rw [GetStatus_trace, hs1]; rfl
    · rw [ReadRegister_trace, GetStatus_trace, hs1, hf1, List.append_assoc]; rfl
  refine ⟨hv.1, hv.2.1, hv.2.2, ht, ?_, ?_⟩
  · rw [ht, List.drop_left, hw]
    split
    · rfl
    · rw [ReadRegister_bus H B _ f, GetStatus_bus B s, ← busAfter_append]; rfl
  · rw [hw]
    split <;> rfl

/-- Witness for C8: the documented header and a bus that returns the status
byte 0x0E (RX_DR clear) and then the FIFO_STATUS byte 0x10 (RX_EMPTY clear):
the result is nonzero and both frames are in the log. -/
theorem DataReady_iff_witness :
    (NRF24L01_DataReady datasheet scriptBus (World.start struct0 [0x0E, 0x10])).1 ≠ 0
      ∧ (NRF24L01_DataReady datasheet scriptBus (World.start struct0 [0x0E, 0x10])).2.trace
        = [Event.csn false, Event.txrx 0xFF 0x0E, Event.csn true,
           Event.csn false, Event.tx 0x17, Event.txrx 0xFF 0x10, Event.csn true] := by
  have h := DataReady_iff datasheet scriptBus (World.start struct0 [0x0E, 0x10]) 0x0E 0x10
    (by decide) (by decide)
  refine ⟨h.1.mpr (Or.inr (by decide)), ?_⟩
  rw [h.2.2.2.1]
  decide

/-- The tie-break on a concrete bus: status byte 0x30 has both TX_DS and
MAX_RT set and decodes to `Ok`; 0x10 decodes to `Lost`, 0x0E to `Sending`. -/
theorem GetTransmissionStatus_examples :
    (NRF24L01_GetTransmissionStatus datasheet scriptBus (World.start struct0 [0x30])).1
        = NRF24L01_Transmit_Status_Ok
      ∧ (NRF24L01_GetTransmissionStatus datasheet scriptBus (World.start struct0 [0x10])).1
        = NRF24L01_Transmit_Status_Lost
      ∧ (NRF24L01_GetTransmissionStatus datasheet scriptBus (World.start struct0 [0x0E])).1
        = NRF24L01_Transmit_Status_Sending := by
  decide

/-- Data-ready check on a concrete bus: status 0x0E with FIFO_STATUS 0x11
(RX_DR clear, RX_EMPTY set) gives 0; status 0x0E with FIFO_STATUS 0x10 gives 1;
status 0x4E gives 1 without reading FIFO_STATUS. -/
theorem DataReady_examples :
    (NRF24L01_DataReady datasheet scriptBus (World.start struct0 [0x0E, 0x11])).1 = 0
      ∧ (NRF24L01_DataReady datasheet scriptBus (World.start struct0 [0x0E, 0x10])).1 = 1
      ∧ (NRF24L01_DataReady datasheet scriptBus (World.start struct0 [0x4E, 0x11])).1 = 1
      ∧ (NRF24L01_DataReady datasheet scriptBus (World.start struct0 [0x4E, 0x11])).2.bus
        = [0x11] := by
  decide

/-! ## Receive (C9) -/

theorem busReturnsMany_length (B : Bus β) (out n : Nat) (b : β) :
    (busReturnsMany B out n b).length = n := by
  induction n generalizing b with
  | zero => rfl
  | succ n ih => simp [busReturnsMany, ih]

theorem receiveLoop_spec (B : Bus β) (left index : Nat) (data : Nat → Nat) (w : World β) :
    (receiveLoop B left index data w).2.trace
        = w.trace ++ (busReturnsMany B NRF24L01_NOP_MASK left w.bus).map
            (fun r => Event.txrx NRF24L01_NOP_MASK r)
      ∧ (receiveLoop B left index data w).2.bus
        = busAfter B w.bus ((busReturnsMany B NRF24L01_NOP_MASK left w.bus).map
            (fun r => Event.txrx NRF24L01_NOP_MASK r))
      ∧ (receiveLoop B left index data w).2.NRF24L01_Struct = w.NRF24L01_Struct
      ∧ ∀ i, (receiveLoop B left index data w).1 i
          = if index ≤ i ∧ i < index + left
            then (busReturnsMany B NRF24L01_NOP_MASK left w.bus).getD (i - index) 0
            else data i := by
  induction left generalizing index data w with
  | zero =>
      refine ⟨by simp [receiveLoop, busReturnsMany], rfl, rfl, ?_⟩
      intro i
      have : ¬ (index ≤ i ∧ i < index + 0) := by omega
      simp only [receiveLoop]
      rw [if_neg this]
  | succ n ih =>
      obtain ⟨htr, hbus, hst, hbuf⟩ :=
        ih (index + 1)
          (Function.update data index (HAL_SPI_TransmitReceive B NRF24L01_NOP_MASK w).1)
          (HAL_SPI_TransmitReceive B NRF24L01_NOP_MASK w).2
      have hb : (HAL_SPI_TransmitReceive B NRF24L01_NOP_MASK w).2.bus
          = (B.HAL_SPI_TransmitReceive w.bus NRF24L01_NOP_MASK).1 := rfl
      have hv : (HAL_SPI_TransmitReceive B NRF24L01_NOP_MASK w).1
          = busReturns B w.bus NRF24L01_NOP_MASK := rfl
      rw [hb] at htr hbus hbuf
      refine ⟨?_, ?_, ?_, ?_⟩
      · simp only [receiveLoop]
        rw [htr]
        simp [busReturnsMany, hv]
      · simp only [receiveLoop]
        rw [hbus]
        rfl
      · simp [receiveLoop, hst]
      · intro i
        simp only [receiveLoop, busReturnsMany]
        rw [hbuf i]
        by_cases h1 : index + 1 ≤ i ∧ i < index + 1 + n
        · have h2 : index ≤ i ∧ i < index + (n + 1) := by omega
          have h3 : i - index = (i - (index + 1)) + 1 := by omega
          simp only [if_pos h1, if_pos h2, h3, List.getD_cons_succ]
        · by_cases h4 : i = index
          · subst h4
            have h2 : i ≤ i ∧ i < i + (n + 1) := by omega
            simp [if_neg h1, if_pos h2, hv]
          · have h2 : ¬ (index ≤ i ∧ i < index + (n + 1)) := by omega
            simp [if_neg h1, if_neg h2, Function.update_noteq h4]

/-- C9: for every stored payload size `n` and a header whose RX_DR flag is
bit 6, let `rs` be the `n` bytes that the bus hands back to `n` successive
transfers of the no-op byte 0xFF once chip-select is low and the read-payload
byte 0x61 has been sent.  `NRF24L01_GetData` adds to the event log exactly one
frame with 0x61 followed by these `n` transfers, each with the byte of `rs`
it clocked in, then one framed write of 0x40 to the STATUS register.  The
returned buffer holds `rs[i]` at every index `i < n` and the old content at
every other index; the bus ends in the state reached by driving it with
exactly the logged events, and the static structure is unchanged. -/
theorem GetData_effect (H : Header) (B : Bus β) (data : Nat → Nat) (w : World β)
    (hRX : H.NRF24L01_RX_DR = 6) :
    (NRF24L01_GetData H B data w).2.trace
        = w.trace ++ ([Event.csn false, Event.tx 0x61]
            ++ (busReturnsMany B 0xFF w.NRF24L01_Struct.PayloadSize
                  (busAfter B w.bus [Event.csn false, Event.tx 0x61])).map
                (fun r => Event.txrx 0xFF r)
            ++ [Event.csn true]
            ++ framedWrite H H.NRF24L01_REG_STATUS 0x40)
      ∧ (busReturnsMany B 0xFF w.NRF24L01_Struct.PayloadSize
            (busAfter B w.bus [Event.csn false, Event.tx 0x61])).length
          = w.NRF24L01_Struct.PayloadSize
      ∧ (∀ i, i < w.NRF24L01_Struct.PayloadSize →
          (NRF24L01_GetData H B data w).1 i
            = (busReturnsMany B 0xFF w.NRF24L01_Struct.PayloadSize
                (busAfter B w.bus [Event.csn false, Event.tx 0x61])).getD i 0)
      ∧ (∀ i, w.NRF24L01_Struct.PayloadSize ≤ i → (NRF24L01_GetData H B data w).1 i = data i)
      ∧ (NRF24L01_GetData H B data w).2.bus
        = busAfter B w.bus ((NRF24L01_GetData H B data w).2.trace.drop w.trace.length)
      ∧ (NRF24L01_GetData H B data w).2.NRF24L01_Struct = w.NRF24L01_Struct := by
  obtain ⟨htr, hbus, hst, hbuf⟩ :=
    receiveLoop_spec B w.NRF24L01_Struct.PayloadSize 0 data
      (HAL_SPI_Transmit B NRF24L01_R_RX_PAYLOAD_MASK (NRF24L01_CSN_LOW B w))
  have hb : (HAL_SPI_Transmit B NRF24L01_R_RX_PAYLOAD_MASK (NRF24L01_CSN_LOW B w)).bus
      = busAfter B w.bus [Event.csn false, Event.tx 0x61] := rfl
  rw [hb] at htr hbus hbuf
  have ht : (NRF24L01_GetData H B data w).2.trace
        = w.trace ++ ([Event.csn false, Event.tx 0x61]
            ++ (busReturnsMany B 0xFF w.NRF24L01_Struct.PayloadSize
                  (busAfter B w.bus [Event.csn false, Event.tx 0x61])).map
                (fun r => Event.txrx 0xFF r)
            ++ [Event.csn true]
            ++ framedWrite H H.NRF24L01_REG_STATUS 0x40) := by
    simp only [NRF24L01_GetData, WriteRegister_trace, CSN_HIGH_trace, htr]
    simp [hRX, framedWrite, NRF24L01_R_RX_PAYLOAD_MASK, NRF24L01_NOP_MASK]
  refine ⟨ht, busReturnsMany_length B _ _ _, ?_, ?_, ?_, ?_⟩
  · intro i hi
    have := hbuf i
    simp only [NRF24L01_GetData]
    simpa [hi, NRF24L01_NOP_MASK] using this
  · intro i hi
    have := hbuf i
    have hn : ¬ i < w.NRF24L01_Struct.PayloadSize := by omega
    simp only [NRF24L01_GetData]
    simpa [hn] using this
  · rw [ht, List.drop_left]
    simp only [NRF24L01_GetData, WriteRegister_bus, CSN_HIGH_bus, hbus, busAfter_append, hRX,
      NRF24L01_NOP_MASK]
    rfl
  · simp [NRF24L01_GetData, hst]

/-- Witness for C9: the documented header (RX_DR is bit 6), payload size 3,
a buffer filled with 7 and a bus that returns 0xDE, 0xAD, 0xBE: these three
bytes land at indices 0, 1, 2, index 3 keeps its 7, and the log shows the
three transfers and the write of 0x40 to STATUS. -/
theorem GetData_effect_witness :
    datasheet.NRF24L01_RX_DR = 6
      ∧ (NRF24L01_GetData datasheet scriptBus (fun _ => 7)
            (World.start { struct0 with PayloadSize := 3 } [0xDE, 0xAD, 0xBE])).1 0 = 0xDE
      ∧ (NRF24L01_GetData datasheet scriptBus (fun _ => 7)
            (World.start { struct0 with PayloadSize := 3 } [0xDE, 0xAD, 0xBE])).1 1 = 0xAD
      ∧ (NRF24L01_GetData datasheet scriptBus (fun _ => 7)
            (World.start { struct0 with PayloadSize := 3 } [0xDE, 0xAD, 0xBE])).1 2 = 0xBE
      ∧ (NRF24L01_GetData datasheet scriptBus (fun _ => 7)
            (World.start { struct0 with PayloadSize := 3 } [0xDE, 0xAD, 0xBE])).1 3 = 7
      ∧ (NRF24L01_GetData datasheet scriptBus (fun _ => 7)
            (World.start { struct0 with PayloadSize := 3 } [0xDE, 0xAD, 0xBE])).2.trace
        = [Event.csn false, Event.tx 0x61, Event.txrx 0xFF 0xDE, Event.txrx 0xFF 0xAD,
           Event.txrx 0xFF 0xBE, Event.csn true,
           Event.csn false, Event.tx 0x27, Event.tx 0x40, Event.csn true] := by
  have h := GetData_effect datasheet scriptBus (fun _ => 7)
    (World.start { struct0 with PayloadSize := 3 } [0xDE, 0xAD, 0xBE]) rfl
  refine ⟨rfl, ?_, ?_, ?_, ?_, ?_⟩
  · rw [h.2.2.1 0 (by decide)]; decide
  · rw [h.2.2.1 1 (by decide)]; decide
  · rw [h.2.2.1 2 (by decide)]; decide
  · rw [h.2.2.2.1 3 (by decide)]
  · rw [h.1]; decide

/-! ## Power down (C10) -/

theorem clearBit_testBit (c p j : Nat) (hc : c < 256) :
    ((c &&& ((2 ^ 32 - 1) ^^^ ((1 <<< p) % 2 ^ 32))) % 256).testBit j
      = (c.testBit j && decide (j ≠ p)) := by
  have hle : c &&& ((2 ^ 32 - 1) ^^^ ((1 <<< p) % 2 ^ 32)) ≤ c := Nat.and_le_left
  rw [Nat.mod_eq_of_lt (lt_of_le_of_lt hle hc), Nat.one_shiftLeft]
  simp only [Nat.testBit_and, Nat.testBit_xor, Nat.testBit_two_pow_sub_one,
    Nat.testBit_mod_two_pow, Nat.testBit_two_pow]
  by_cases hj : j < 8
  · have h32 : j < 32 := by omega
    by_cases hp : p = j
    · subst hp; simp [h32]
    · have hp2 : j ≠ p := fun h => hp h.symm
      simp [h32, hp, hp2]
  · have hcj : c.testBit j = false := by
      apply Nat.testBit_lt_two_pow
      exact lt_of_lt_of_le hc (Nat.pow_le_pow_right (by decide) (by omega) : 2 ^ 8 ≤ 2 ^ j)
    simp [hcj]

theorem clearBit_eq (c p : Nat) (hc : c < 256) :
    (c &&& ((2 ^ 32 - 1) ^^^ ((1 <<< p) % 2 ^ 32))) % 256 = c ^^^ (c &&& (1 <<< p)) := by
  apply Nat.eq_of_testBit_eq
  intro j
  rw [clearBit_testBit c p j hc, Nat.one_shiftLeft]
  simp only [Nat.testBit_xor, Nat.testBit_and, Nat.testBit_two_pow]
  by_cases hp : p = j
  · subst hp; cases c.testBit p <;> simp
  · have hp2 : j ≠ p := fun h => hp h.symm
    cases c.testBit j <;> simp [hp, hp2]

theorem xor_and_bit_testBit (c p j : Nat) :
    (c ^^^ (c &&& (1 <<< p))).testBit j = (c.testBit j && decide (j ≠ p)) := by
  rw [Nat.one_shiftLeft]
  simp only [Nat.testBit_xor, Nat.testBit_and, Nat.testBit_two_pow]
  by_cases hp : p = j
  · subst hp; cases c.testBit p <;> simp
  · have hp2 : j ≠ p := fun h => hp h.symm
    cases c.testBit j <;> simp [hp, hp2]

/-- C10: let `c` be the byte the bus hands back to the no-op transfer of the
CONFIG read frame once CE has been driven low.  `NRF24L01_PowerDown` adds to
the event log exactly: CE low, the framed read of CONFIG that clocked in `c`,
and one framed write to CONFIG of `c` with bit PWR_UP removed: bit PWR_UP of
the written byte is 0 and every other bit equals that bit of `c`.  No other
register is written and CE is not raised; the bus ends in the state reached
by driving it with exactly these events (so the write-back reaches the bus),
and the static structure is unchanged. -/
theorem PowerDown_effect (H : Header) (B : Bus β) (w : World β) (c : Nat)
    (hc : busReturns B (busAfter B w.bus
        [Event.ce false, Event.csn false,
         Event.tx (H.NRF24L01_READ_REGISTER_MASK (H.NRF24L01_REG_CONFIG % 256) % 256)])
        0xFF = c) :
    (NRF24L01_PowerDown H B w).trace
        = w.trace ++ ([Event.ce false]
            ++ framedRead H H.NRF24L01_REG_CONFIG c
            ++ [Event.csn false,
                Event.tx (H.NRF24L01_WRITE_REGISTER_MASK (H.NRF24L01_REG_CONFIG % 256) % 256),
                Event.tx (c ^^^ (c &&& (1 <<< H.NRF24L01_PWR_UP))), Event.csn true])
      ∧ (c ^^^ (c &&& (1 <<< H.NRF24L01_PWR_UP))).testBit H.NRF24L01_PWR_UP = false
      ∧ (∀ j, j ≠ H.NRF24L01_PWR_UP →
          (c ^^^ (c &&& (1 <<< H.NRF24L01_PWR_UP))).testBit j = c.testBit j)
      ∧ (NRF24L01_PowerDown H B w).bus
        = busAfter B w.bus ((NRF24L01_PowerDown H B w).trace.drop w.trace.length)
      ∧ (NRF24L01_PowerDown H B w).NRF24L01_Struct = w.NRF24L01_Struct := by
  have hc1 : (NRF24L01_ReadRegister H B H.NRF24L01_REG_CONFIG (NRF24L01_CE_LOW B w)).1 = c := hc
  have hlt : c < 256 := by rw [← hc1]; exact ReadRegister_lt H B _ _
  have hv := clearBit_eq c H.NRF24L01_PWR_UP hlt
  have hm : (c ^^^ (c &&& (1 <<< H.NRF24L01_PWR_UP))) % 256
      = c ^^^ (c &&& (1 <<< H.NRF24L01_PWR_UP)) := by
    rw [← hv]; exact Nat.mod_mod _ _
  simp only [Nat.reducePow, Nat.reduceSub] at hv
  have ht : (NRF24L01_PowerDown H B w).trace
        = w.trace ++ ([Event.ce false]
            ++ framedRead H H.NRF24L01_REG_CONFIG c
            ++ [Event.csn false,
                Event.tx (H.NRF24L01_WRITE_REGISTER_MASK (H.NRF24L01_REG_CONFIG % 256) % 256),
                Event.tx (c ^^^ (c &&& (1 <<< H.NRF24L01_PWR_UP))), Event.csn true]) := by
    simp only [NRF24L01_PowerDown, NRF24L01_WriteBit, WriteRegister_trace, ReadRegister_trace,
      CE_LOW_trace, hc1]
    simp [framedWrite, hv, hm]
  refine ⟨ht, ?_, ?_, ?_, ?_⟩
  · rw [xor_and_bit_testBit]; simp
  · intro j hj
    rw [xor_and_bit_testBit]; simp [hj]
  · rw [ht, List.drop_left]
    simp only [NRF24L01_PowerDown, NRF24L01_WriteBit, WriteRegister_bus,
      ReadRegister_bus H B _ c, CE_LOW_bus, busAfter_append, hc1]
    simp [framedWrite, hv, hm]
  · simp [NRF24L01_PowerDown, NRF24L01_WriteBit]

set_option maxRecDepth 100000 in
/-- Witness for C10: the documented header on the mock chip whose CONFIG
register holds 0x0B: the byte read is 0x0B, the byte written back is 0x09
(bit PWR_UP = bit 1 removed), and a read of CONFIG after the call returns
0x09. -/
theorem PowerDown_effect_witness :
    (NRF24L01_PowerDown datasheet echoBus
        (World.start struct0 (Chip.idle (fun a _ => if a = 0 then 0x0B else 0)))).trace
        = [Event.ce false,
           Event.csn false, Event.tx 0x00, Event.txrx 0xFF 0x0B, Event.csn true,
           Event.csn false, Event.tx 0x20, Event.tx 0x09, Event.csn true]
      ∧ (NRF24L01_ReadRegister datasheet echoBus datasheet.NRF24L01_REG_CONFIG
          (NRF24L01_PowerDown datasheet echoBus
            (World.start struct0 (Chip.idle (fun a _ => if a = 0 then 0x0B else 0))))).1
        = 0x09 := by
  have h := PowerDown_effect datasheet echoBus
    (World.start struct0 (Chip.idle (fun a _ => if a = 0 then 0x0B else 0))) 0x0B (by decide)
  refine ⟨?_, by decide⟩
  rw [h.1]
  decide

/-! ## The driver on the mock chip (C3, C4) -/

theorem write_command_decodes (a : Nat) :
    (0x20 ||| (a &&& 0x1F)) &&& 0xE0 = 0x20 ∧ (0x20 ||| (a &&& 0x1F)) &&& 0x1F = a &&& 0x1F := by
  have h : a &&& 0x1F < 32 := lt_of_le_of_lt Nat.and_le_right (by decide)
  generalize a &&& 0x1F = k at h
  interval_cases k <;> exact ⟨rfl, rfl⟩

theorem read_command_decodes (a : Nat) :
    (a &&& 0x1F) &&& 0xE0 = 0 ∧ (a &&& 0x1F) &&& 0x1F = a &&& 0x1F := by
  have h : a &&& 0x1F < 32 := lt_of_le_of_lt Nat.and_le_right (by decide)
  generalize a &&& 0x1F = k at h
  interval_cases k <;> exact ⟨rfl, rfl⟩

@[simp] theorem idle_regs (regs : Nat → Nat → Nat) : (Chip.idle regs).regs = regs := rfl

theorem store_apply (regs : Nat → Nat → Nat) (a i b a1 i1 : Nat) :
    Chip.store regs a i b a1 i1 = if a1 = a ∧ i1 = i then b else regs a1 i1 := by
  unfold Chip.store
  by_cases ha : a1 = a
  · subst ha
    by_cases hi : i1 = i
    · subst hi; simp
    · simp [hi, Function.update_noteq hi]
  · simp [ha, Function.update_noteq ha]

section Echo

variable (H : Header)

@[simp] theorem echo_CE_LOW (w : World Chip) : (NRF24L01_CE_LOW echoBus w).bus = w.bus := rfl

@[simp] theorem echo_CE_HIGH (w : World Chip) : (NRF24L01_CE_HIGH echoBus w).bus = w.bus := rfl

theorem echo_WriteRegister (hF : H.framed) (reg value : Nat) (w : World Chip) :
    (NRF24L01_WriteRegister H echoBus reg value w).bus
      = Chip.idle (Chip.store w.bus.regs (low5 reg) 0 (value % 256)) := by
  have h := (hF (reg % 256) (Nat.mod_lt _ (by decide))).1
  have hd := write_command_decodes (reg % 256)
  simp [NRF24L01_WriteRegister, NRF24L01_CSN_LOW, NRF24L01_CSN_HIGH, HAL_SPI_Transmit, echoBus,
    h, hd.1, hd.2, Chip.idle, low5]

theorem echo_ReadRegister (hF : H.framed) (reg : Nat) (w : World Chip) :
    (NRF24L01_ReadRegister H echoBus reg w).1 = w.bus.regs (low5 reg) 0 % 256 := by
  have h := (hF (reg % 256) (Nat.mod_lt _ (by decide))).2
  have hd := read_command_decodes (reg % 256)
  simp [NRF24L01_ReadRegister, NRF24L01_CSN_LOW, HAL_SPI_Transmit,
    HAL_SPI_TransmitReceive, echoBus, h, hd.1, hd.2, low5]

@[simp] theorem echo_Flush_TX (w : World Chip) :
    (NRF24L01_Flush_TX echoBus w).bus = Chip.idle w.bus.regs := by
  simp [NRF24L01_Flush_TX, NRF24L01_CSN_LOW, NRF24L01_CSN_HIGH, HAL_SPI_Transmit, echoBus,
    Chip.idle]

@[simp] theorem echo_Flush_RX (w : World Chip) :
    (NRF24L01_Flush_RX echoBus w).bus = Chip.idle w.bus.regs := by
  simp [NRF24L01_Flush_RX, NRF24L01_CSN_LOW, NRF24L01_CSN_HIGH, HAL_SPI_Transmit, echoBus,
    Chip.idle]

theorem echo_SetRF (hF : H.framed) (d : NRF24L01_DataRate_t) (p : NRF24L01_OutputPower_t)
    (w : World Chip) :
    ∃ v, (NRF24L01_SetRF H echoBus d p w).bus
      = Chip.idle (Chip.store w.bus.regs (low5 H.NRF24L01_REG_RF_SETUP) 0 v) := by
  unfold NRF24L01_SetRF
  exact ⟨_, echo_WriteRegister H hF _ _ _⟩

@[simp] theorem SetRF_struct_payload (B : Bus β) (d : NRF24L01_DataRate_t)
    (p : NRF24L01_OutputPower_t) (w : World β) :
    (NRF24L01_SetRF H B d p w).NRF24L01_Struct.PayloadSize = w.NRF24L01_Struct.PayloadSize := rfl

@[simp] theorem SetChannel_struct_payload (B : Bus β) (channel : Nat) (w : World β) :
    (NRF24L01_SetChannel H B channel w).NRF24L01_Struct.PayloadSize
      = w.NRF24L01_Struct.PayloadSize := by
  unfold NRF24L01_SetChannel
  split <;> rfl

end Echo

@[simp] theorem WriteRegisterMulti_struct (H : Header) (B : Bus β) (reg : Nat) (data : Nat → Nat)
    (count : Nat) (w : World β) :
    (NRF24L01_WriteRegisterMulti H B reg data count w).NRF24L01_Struct = w.NRF24L01_Struct := by
  simp [NRF24L01_WriteRegisterMulti]

@[simp] theorem SoftwareReset_struct (H : Header) (B : Bus β) (w : World β) :
    (NRF24L01_SoftwareReset H B w).NRF24L01_Struct = w.NRF24L01_Struct := by
  simp [NRF24L01_SoftwareReset]

theorem Init_struct_payload (H : Header) (B : Bus β) (channel payload_size : Nat) (w : World β) :
    (NRF24L01_Init H B channel payload_size w).2.NRF24L01_Struct.PayloadSize
      = min payload_size 32 := by
  have h : (if payload_size > 32 then 32 else payload_size) = min payload_size 32 := by
    split <;> omega
  simp only [NRF24L01_Init, NRF24L01_PowerUpRx, NRF24L01_Clear_Interrupts,
    CE_HIGH_struct, CE_LOW_struct, WriteRegister_struct, Flush_RX_struct, Flush_TX_struct,
    SetRF_struct_payload, SetChannel_struct_payload, SoftwareReset_struct, h]

theorem regs_WriteRegister (H : Header) (hF : H.framed) (reg value : Nat) (w : World Chip)
    (a i : Nat) :
    (NRF24L01_WriteRegister H echoBus reg value w).bus.regs a i
      = if a = low5 reg ∧ i = 0 then value % 256 else w.bus.regs a i := by
  rw [echo_WriteRegister H hF, idle_regs, store_apply]

set_option maxRecDepth 100000 in
theorem datasheet_framed : datasheet.framed := by
  decide

theorem datasheet_widthsApart : datasheet.widthsApart := by
  decide

/-- C3: on the mock chip that echoes register writes, with a header whose
register commands have the framing the chip decodes and whose six pipe width
registers lie apart from each other and from the registers written after
them, `NRF24L01_Init` with any channel and any requested payload size, from
any world, stores `min(payload_size, 32)` as PayloadSize (32 whenever
`payload_size > 32`), and each of RX_PW_P0..RX_PW_P5 then reads back that
stored value. -/
theorem Init_payload_size (H : Header) (hF : H.framed) (hA : H.widthsApart)
    (channel payload_size : Nat) (w : World Chip) :
    (NRF24L01_Init H echoBus channel payload_size w).2.NRF24L01_Struct.PayloadSize
        = min payload_size 32
      ∧ (32 < payload_size →
          (NRF24L01_Init H echoBus channel payload_size w).2.NRF24L01_Struct.PayloadSize = 32)
      ∧ ∀ reg ∈ H.pipeWidthRegs,
          (NRF24L01_ReadRegister H echoBus reg
              (NRF24L01_Init H echoBus channel payload_size w).2).1
            = (NRF24L01_Init H echoBus channel payload_size w).2.NRF24L01_Struct.PayloadSize := by
  have hps := Init_struct_payload H echoBus channel payload_size w
  refine ⟨hps, fun h => by rw [hps]; omega, ?_⟩
  intro reg hreg
  rw [hps, echo_ReadRegister H hF]
  have hmod : min payload_size 32 % 256 = min payload_size 32 := Nat.mod_eq_of_lt (by omega)
  have hif : (if payload_size > 32 then 32 else payload_size) = min payload_size 32 := by
    split <;> omega
  simp only [Header.widthsApart, Header.pipeWidthRegs, Header.writtenAfterWidths, List.map,
    List.nodup_cons, List.mem_cons, List.mem_singleton, List.not_mem_nil, or_false, not_or,
    forall_eq_or_imp, forall_eq, List.nodup_nil, and_true, ne_eq] at hA hreg
  obtain ⟨⟨h0, h1, h2, h3, h4⟩, g0, g1, g2, g3, g4, g5⟩ := hA
  rcases hreg with rfl | rfl | rfl | rfl | rfl | rfl <;>
    simp [NRF24L01_Init, NRF24L01_PowerUpRx, NRF24L01_Clear_Interrupts, NRF24L01_SetRF,
      regs_WriteRegister H hF, hif, hmod, *]

/-- Witness for C3: the documented header on the mock chip, started with an
all-zero register file, channel 40 and requested payload size 200. -/
theorem Init_payload_size_witness :
    (NRF24L01_Init datasheet echoBus 40 200
        (World.start struct0 (Chip.idle (fun _ _ => 0)))).2.NRF24L01_Struct.PayloadSize = 32
      ∧ (NRF24L01_ReadRegister datasheet echoBus datasheet.NRF24L01_REG_RX_PW_P3
          (NRF24L01_Init datasheet echoBus 40 200
            (World.start struct0 (Chip.idle (fun _ _ => 0)))).2).1 = 32 := by
  have h := Init_payload_size datasheet datasheet_framed datasheet_widthsApart 40 200
    (World.start struct0 (Chip.idle (fun _ _ => 0)))
  refine ⟨h.2.1 (by decide), ?_⟩
  rw [h.2.2 datasheet.NRF24L01_REG_RX_PW_P3 (by decide), h.2.1 (by decide)]

theorem Init_rejected_channel (H : Header) (B : Bus β) (channel payload_size : Nat)
    (w : World β) (hc : 125 < channel) :
    (NRF24L01_Init H B channel payload_size w).2.NRF24L01_Struct.Channel = 0
      ∧ NRF24L01_SetChannel H B 0 (NRF24L01_Init H B channel payload_size w).2
        = (NRF24L01_Init H B channel payload_size w).2 := by
  have h0 : channel ≠ 0 := by omega
  have hn : ¬ channel ≤ 125 := by omega
  have hch : (NRF24L01_Init H B channel payload_size w).2.NRF24L01_Struct.Channel = 0 := by
    simp [NRF24L01_Init, NRF24L01_SetChannel, NRF24L01_SetRF, NRF24L01_PowerUpRx,
      NRF24L01_Clear_Interrupts, h0, hn]
  refine ⟨hch, ?_⟩
  generalize (NRF24L01_Init H B channel payload_size w).2 = w1 at hch
  simp [NRF24L01_SetChannel, hch]

theorem Init_accepted_channel (H : Header) (hF : H.framed) (hC : H.channelApart)
    (channel payload_size : Nat) (w : World Chip) (hc : channel ≤ 125) :
    (NRF24L01_Init H echoBus channel payload_size w).2.NRF24L01_Struct.Channel = channel
      ∧ (NRF24L01_Init H echoBus channel payload_size w).2.bus.regs
          (low5 H.NRF24L01_REG_RF_CH) 0 = channel := by
  have hne : channel ≠ (if channel = 0 then 1 else 0) := by split <;> omega
  have hm : channel % 256 = channel := Nat.mod_eq_of_lt (by omega)
  simp only [Header.channelApart, Header.pipeWidthRegs, Header.writtenAfterWidths,
    List.cons_append, List.nil_append, List.mem_cons, List.mem_singleton, List.not_mem_nil,
    or_false, forall_eq_or_imp, forall_eq, ne_eq] at hC
  obtain ⟨c0, c1, c2, c3, c4, c5, c6, c7, c8, c9, c10, c11, c12⟩ := hC
  constructor
  · simp [NRF24L01_Init, NRF24L01_SetChannel, NRF24L01_SetRF, NRF24L01_PowerUpRx,
      NRF24L01_Clear_Interrupts, hc, hne]
  · simp [NRF24L01_Init, NRF24L01_SetChannel, NRF24L01_SetRF, NRF24L01_PowerUpRx,
      NRF24L01_Clear_Interrupts, regs_WriteRegister H hF, hc, hne, hm, *]

theorem SetChannel_reads_back_after_accepted_channel (H : Header) (hF : H.framed)
    (hC : H.channelApart) (channel payload_size c : Nat) (w : World Chip)
    (hc : channel ≤ 125) (hc2 : c ≤ 125) :
    (NRF24L01_ReadRegister H echoBus H.NRF24L01_REG_RF_CH
      (NRF24L01_SetChannel H echoBus c
        (NRF24L01_Init H echoBus channel payload_size w).2)).1 = c := by
  obtain ⟨hs, hr⟩ := Init_accepted_channel H hF hC channel payload_size w hc
  have hm : c % 256 = c := Nat.mod_eq_of_lt (by omega)
  rw [echo_ReadRegister H hF]
  generalize (NRF24L01_Init H echoBus channel payload_size w).2 = w1 at hs hr
  by_cases hcc : c = channel
  · subst hcc
    simp [NRF24L01_SetChannel, hs, hr, hm]
  · have hcc2 : c ≠ w1.NRF24L01_Struct.Channel := by rw [hs]; exact hcc
    simp [NRF24L01_SetChannel, hc2, hcc2, regs_WriteRegister H hF, hm]

set_option maxRecDepth 1000000 in
/-- C4 at a failing input: on the mock chip with the documented header,
`Init(channel = 200, payload_size = 16)` finds its channel rejected by
`NRF24L01_SetChannel` and leaves the placeholder `!channel = 0` as stored
channel while RF_CH holds its reset default 0x02.  `SetChannel(0)` then adds
no event at all, and RF_CH still reads 0x02 instead of 0.  After
`Init(channel = 40, ...)` the same `SetChannel(0)` does reach the chip:
RF_CH reads 0. -/
theorem SetChannel_zero_after_rejected_channel :
    (NRF24L01_Init datasheet echoBus 200 16
        (World.start struct0 (Chip.idle (fun _ _ => 0)))).2.NRF24L01_Struct.Channel = 0
      ∧ (NRF24L01_SetChannel datasheet echoBus 0
          (NRF24L01_Init datasheet echoBus 200 16
            (World.start struct0 (Chip.idle (fun _ _ => 0)))).2).trace
        = (NRF24L01_Init datasheet echoBus 200 16
            (World.start struct0 (Chip.idle (fun _ _ => 0)))).2.trace
      ∧ (NRF24L01_ReadRegister datasheet echoBus datasheet.NRF24L01_REG_RF_CH
          (NRF24L01_SetChannel datasheet echoBus 0
            (NRF24L01_Init datasheet echoBus 200 16
              (World.start struct0 (Chip.idle (fun _ _ => 0)))).2)).1 = 2
      ∧ (NRF24L01_ReadRegister datasheet echoBus datasheet.NRF24L01_REG_RF_CH
          (NRF24L01_SetChannel datasheet echoBus 0
            (NRF24L01_Init datasheet echoBus 40 16
              (World.start struct0 (Chip.idle (fun _ _ => 0)))).2)).1 = 0 := by
  refine ⟨?_, ?_, ?_, ?_⟩ <;> decide

end NRF24L01
